/-
  Verification development for the HUST-ComputerNetwork-SOCKET chat server.

  The definitions below are a shallow embedding of the C++ sources:
    - src/common/Protocol.cpp / Protocol.h   (JSON framing codec, MessageBuffer)
    - src/server/Database.cpp                (account store, message log)
    - src/server/ClientSession.cpp / .h      (per-session dispatch, rate limit)
    - src/server/Server.cpp                  (hub indexes, fan-out), modelled as
      effects plus a world state.

  Bytes are modelled as natural numbers < 256 in lists; C++ std::string payloads
  are modelled as UTF-8 text (List Char on the wire via an explicit UTF-8
  encoder/decoder).  Machine integers are Nat/Int with explicit wrap-around
  where the C++ code can overflow.
-/
import Mathlib

set_option maxRecDepth 10000

namespace ChatSpec

/-! ### UTF-8 byte layer

The C++ code moves JSON payloads as raw bytes (std::string / uint8_t buffers);
nlohmann::json validates UTF-8 while lexing and rejects malformed input.  We
model a byte as a Nat (< 256 for meaningful streams) and give the standard
UTF-8 encoder and a strict decoder (rejecting overlong forms, surrogates and
out-of-range code points, as nlohmann does). -/
/-- A UTF-8 continuation byte: 10xxxxxx. -/
def isContByte (b : Nat) : Bool := 0x80 ≤ b && b < 0xC0

/-- Standard UTF-8 encoding of one scalar value. -/
def utf8EncodeChar (c : Char) : List Nat :=
  let n := c.toNat
  if n < 0x80 then [n]
  else if n < 0x800 then [0xC0 + n / 64, 0x80 + n % 64]
  else if n < 0x10000 then [0xE0 + n / 4096, 0x80 + n / 64 % 64, 0x80 + n % 64]
  else [0xF0 + n / 262144, 0x80 + n / 4096 % 64, 0x80 + n / 64 % 64, 0x80 + n % 64]

/-- UTF-8 encoding of a character sequence. -/
def utf8Encode (s : List Char) : List Nat := (s.map utf8EncodeChar).flatten

/-- Decode one UTF-8 scalar value from the front of a byte list.  Rejects
continuation-byte leaders, overlong encodings (0xC0/0xC1 leaders, short
values under longer leaders), surrogate code points and values above
U+10FFFF — the sequences nlohmann's lexer rejects. -/
def utf8DecodeOne (l : List Nat) : Option (Char × List Nat) :=
  match l with
  | [] => none
  | b0 :: r0 =>
    if b0 < 0x80 then some (Char.ofNat b0, r0)
    else if b0 < 0xC2 then none
    else if b0 < 0xE0 then
      match r0 with
      | b1 :: r1 =>
        if isContByte b1 then some (Char.ofNat ((b0 - 0xC0) * 64 + (b1 - 0x80)), r1) else none
      | [] => none
    else if b0 < 0xF0 then
      match r0 with
      | b1 :: b2 :: r2 =>
        if isContByte b1 && isContByte b2 then
          let n := (b0 - 0xE0) * 4096 + (b1 - 0x80) * 64 + (b2 - 0x80)
          if n < 0x800 then none
          else if 0xD800 ≤ n && n < 0xE000 then none
          else some (Char.ofNat n, r2)
        else none
      | _ => none
    else if b0 < 0xF5 then
      match r0 with
      | b1 :: b2 :: b3 :: r3 =>
        if isContByte b1 && isContByte b2 && isContByte b3 then
          let n := (b0 - 0xF0) * 262144 + (b1 - 0x80) * 4096 + (b2 - 0x80) * 64 + (b3 - 0x80)
          if n < 0x10000 then none
          else if 0x110000 ≤ n then none
          else some (Char.ofNat n, r3)
        else none
      | _ => none
    else none

/-- Fuel-driven decoding loop.  One unit of fuel is spent per decoded
character, so fuel equal to the byte count always suffices. -/
def utf8DecodeAux : Nat → List Nat → Option (List Char)
  | 0, l => if l.isEmpty then some [] else none
  | _ + 1, [] => some []
  | fuel + 1, b :: r =>
    match utf8DecodeOne (b :: r) with
    | some (c, rest) => (utf8DecodeAux fuel rest).map (fun cs => c :: cs)
    | none => none

/-- Strict UTF-8 decoding of a whole byte list. -/
def utf8Decode (l : List Nat) : Option (List Char) := utf8DecodeAux l.length l

/-! ### JSON text layer

src/common/Protocol.cpp serialises messages with nlohmann::json (dump) and
parses them with nlohmann::json::parse.  We embed exactly the fragment the
code exercises: dump with default settings (compact separators, non-ASCII
kept as raw UTF-8, control characters escaped) and a strict RFC 8259 parser
(escapes incl. surrogate pairs, no trailing garbage, strict number grammar,
optional leading byte-order mark skipped as nlohmann::detail::lexer does). -/
def isWsCh (c : Char) : Bool := c.toNat = 32 || c.toNat = 9 || c.toNat = 10 || c.toNat = 13

def isDigitCh (c : Char) : Bool := 48 ≤ c.toNat && c.toNat ≤ 57

def skipWs : List Char → List Char
  | c :: cs => if isWsCh c then skipWs cs else c :: cs
  | [] => []

/-- Lowercase hexadecimal digit character, as printf %x produces. -/
def hexChar (k : Nat) : Char := Char.ofNat (if k < 10 then 48 + k else 87 + k)

def hexVal (c : Char) : Option Nat :=
  if 48 ≤ c.toNat ∧ c.toNat ≤ 57 then some (c.toNat - 48)
  else if 97 ≤ c.toNat ∧ c.toNat ≤ 102 then some (c.toNat - 87)
  else if 65 ≤ c.toNat ∧ c.toNat ≤ 70 then some (c.toNat - 55)
  else none

def hex4 (a b c d : Char) : Option Nat :=
  match hexVal a, hexVal b, hexVal c, hexVal d with
  | some va, some vb, some vc, some vd => some (((va * 16 + vb) * 16 + vc) * 16 + vd)
  | _, _, _, _ => none

/-- Decimal digits of a natural number, most significant first, in front of
acc.  Fuel-driven so that the definition stays kernel-reducible; fuel n + 1
always suffices for the number n. -/
def natDigsF : Nat → Nat → List Char → List Char
  | 0, _, acc => acc
  | f + 1, n, acc =>
    if n < 10 then Char.ofNat (48 + n % 10) :: acc
    else natDigsF f (n / 10) (Char.ofNat (48 + n % 10) :: acc)

def natDigs (n : Nat) : List Char := natDigsF (n + 1) n []

def digsToNatAux (a : Nat) : List Char → Nat
  | [] => a
  | c :: cs => digsToNatAux (a * 10 + (c.toNat - 48)) cs

def digsToNat (ds : List Char) : Nat := digsToNatAux 0 ds

/-- Signed decimal text of an integer, as nlohmann dumps integer values. -/
def intChars (i : Int) : List Char :=
  (if i < 0 then [Char.ofNat 45] else []) ++ natDigs i.natAbs

/-- One character of a JSON string, escaped exactly as nlohmann's
serializer::dump_escaped does with ensure_ascii = false: quote, backslash
and the named control characters get two-character escapes, the other
control characters get lowercase \u00xx, everything else is emitted raw. -/
def escapeChar (c : Char) : List Char :=
  if c.toNat = 34 then ['\\', '"']
  else if c.toNat = 92 then ['\\', '\\']
  else if c.toNat = 8 then ['\\', 'b']
  else if c.toNat = 9 then ['\\', 't']
  else if c.toNat = 10 then ['\\', 'n']
  else if c.toNat = 12 then ['\\', 'f']
  else if c.toNat = 13 then ['\\', 'r']
  else if c.toNat < 32 then ['\\', 'u', '0', '0', hexChar (c.toNat / 16), hexChar (c.toNat % 16)]
  else [c]

def escapeStr (s : List Char) : List Char := (s.map escapeChar).flatten

/-- A JSON string literal: quote, escaped body, quote. -/
def dumpStr (s : List Char) : List Char := '"' :: (escapeStr s ++ ['"'])

def unescapeChar (e : Char) : Option Char :=
  if e.toNat = 34 then some (Char.ofNat 34)
  else if e.toNat = 92 then some (Char.ofNat 92)
  else if e.toNat = 47 then some (Char.ofNat 47)
  else if e.toNat = 98 then some (Char.ofNat 8)
  else if e.toNat = 102 then some (Char.ofNat 12)
  else if e.toNat = 110 then some (Char.ofNat 10)
  else if e.toNat = 114 then some (Char.ofNat 13)
  else if e.toNat = 116 then some (Char.ofNat 9)
  else none

/-- Consume one unit of a JSON string body: the closing quote (result none),
a raw character, an escape, or a \uXXXX escape (UTF-16, a high surrogate must
be followed by a low surrogate escape; lone surrogates and raw control
characters are a parse error, as in nlohmann's lexer). -/
def strStep (l : List Char) : Option (Option Char × List Char) :=
  match l with
  | [] => none
  | c0 :: rest =>
    if c0.toNat = 34 then some (none, rest)
    else if c0.toNat = 92 then
      match rest with
      | 'u' :: a :: b :: c :: d :: rest2 =>
        match hex4 a b c d with
        | some n =>
          if n < 0xD800 ∨ 0xE000 ≤ n then some (some (Char.ofNat n), rest2)
          else if n < 0xDC00 then
            match rest2 with
            | '\\' :: 'u' :: a2 :: b2 :: c2 :: d2 :: rest3 =>
              match hex4 a2 b2 c2 d2 with
              | some n2 =>
                if 0xDC00 ≤ n2 ∧ n2 < 0xE000 then
                  some (some (Char.ofNat (0x10000 + (n - 0xD800) * 1024 + (n2 - 0xDC00))), rest3)
                else none
              | none => none
            | _ => none
          else none
        | none => none
      | e :: rest2 =>
        match unescapeChar e with
        | some ch => some (some ch, rest2)
        | none => none
      | [] => none
    else if c0.toNat < 32 then none
    else some (some c0, rest)

/-- Fuel-driven loop over strStep; fuel equal to the character count always
suffices since every step consumes at least one character. -/
def parseStrAux : Nat → List Char → Option (List Char × List Char)
  | 0, _ => none
  | fuel + 1, l =>
    match strStep l with
    | some (none, rest) => some ([], rest)
    | some (some ch, rest) =>
        (parseStrAux fuel rest).map (fun p => (ch :: p.1, p.2))
    | none => none

/-- Parse a JSON string body after the opening quote, up to and including the
closing quote; returns the decoded characters and the remaining input. -/
def parseStrBody (l : List Char) : Option (List Char × List Char) := parseStrAux l.length l

/-! ### JSON numbers

nlohmann's lexer accepts the strict RFC 8259 number grammar (optional minus,
integer part without leading zeros, optional fraction with at least one
digit, optional exponent with at least one digit).  The numeric value is
modelled exactly as a rational; the only numeric extraction the server code
performs is get<int> on the "type" field, modelled below as truncation
toward zero (the C++ conversion for both stored integers and doubles). -/
def takeDigs : List Char → List Char × List Char
  | c :: cs =>
    if isDigitCh c then ((takeDigs cs).1.cons c, (takeDigs cs).2) else ([], c :: cs)
  | [] => ([], [])

/-- Value of sign, mantissa and decimal exponent as an exact rational. -/
def ratOfParts (neg : Bool) (m : Nat) (e : Int) : Rat :=
  let b : Rat :=
    (m : Rat) * (if 0 ≤ e then ((10 ^ e.toNat : Nat) : Rat) else ((10 ^ (-e).toNat : Nat) : Rat)⁻¹)
  if neg then -b else b

def parseNumExpSign (neg : Bool) (intDs fracDs : List Char) (cs : List Char) :
    Option (Rat × List Char) :=
  let p :=
    match cs with
    | c :: r => if c.toNat = 43 then (false, r) else if c.toNat = 45 then (true, r) else (false, cs)
    | [] => (false, cs)
  match takeDigs p.2 with
  | ([], _) => none
  | (eds, r2) =>
      some (ratOfParts neg (digsToNat (intDs ++ fracDs))
        ((if p.1 then -(digsToNat eds : Int) else (digsToNat eds : Int)) - fracDs.length), r2)

def parseNumExp (neg : Bool) (intDs fracDs : List Char) (cs : List Char) :
    Option (Rat × List Char) :=
  match cs with
  | c :: r =>
    if c.toNat = 101 ∨ c.toNat = 69 then parseNumExpSign neg intDs fracDs r
    else some (ratOfParts neg (digsToNat (intDs ++ fracDs)) (-(fracDs.length : Int)), cs)
  | [] => some (ratOfParts neg (digsToNat (intDs ++ fracDs)) (-(fracDs.length : Int)), [])

def parseNumTail (neg : Bool) (intDs : List Char) (cs : List Char) : Option (Rat × List Char) :=
  match cs with
  | c :: r =>
    if c.toNat = 46 then
      match takeDigs r with
      | ([], _) => none
      | (fds, r2) => parseNumExp neg intDs fds r2
    else parseNumExp neg intDs [] cs
  | [] => parseNumExp neg intDs [] []

def parseNumBody (cs : List Char) (neg : Bool) : Option (Rat × List Char) :=
  match cs with
  | [] => none
  | c1 :: r1 =>
    if c1.toNat = 48 then
      match r1 with
      | c2 :: _ => if isDigitCh c2 then none else parseNumTail neg [c1] r1
      | [] => parseNumTail neg [c1] []
    else if isDigitCh c1 then parseNumTail neg (c1 :: (takeDigs r1).1) (takeDigs r1).2
    else none

def parseNum (cs : List Char) : Option (Rat × List Char) :=
  match cs with
  | [] => none
  | c0 :: r0 => if c0.toNat = 45 then parseNumBody r0 true else parseNumBody cs false

/-- Truncation toward zero, as C++ integer conversion does. -/
def ratTrunc (q : Rat) : Int := if q < 0 then -((-q).floor) else q.floor

/-- The run taken by takeDigs is exactly a digit block followed by a
non-digit (or the end of input). -/
def numStop : List Char → Bool
  | [] => true
  | c :: _ => !(isDigitCh c)

/-! #### Integer round trip through the number grammar -/
/-- The remainder after a dumped integer must not extend the number: it is
empty or starts with none of digit, dot, e, E.  The JSON delimiters comma
and closing brace satisfy this. -/
def numBreak : List Char → Bool
  | [] => true
  | c :: _ => !(isDigitCh c || c.toNat = 46 || c.toNat = 101 || c.toNat = 69)

/-! ### JSON values, parser and the flat dumps the server emits -/
inductive JVal where
  | jnull : JVal
  | jbool : Bool → JVal
  | jnum : Rat → JVal
  | jstr : List Char → JVal
  | jarr : List JVal → JVal
  | jobj : List (List Char × JVal) → JVal

mutual

/-- The full JSON grammar, fuel-driven (one unit of fuel per nested parser
entry; jparse supplies fuel 2·length + 2, which the character consumption
argument shows is always enough).  Dispatch mirrors nlohmann's lexer. -/
def jparseVal : Nat → List Char → Option (JVal × List Char)
  | 0, _ => none
  | fuel + 1, cs =>
    match skipWs cs with
    | [] => none
    | c :: r =>
      if c.toNat = 110 then
        match r with
        | 'u' :: 'l' :: 'l' :: r2 => some (.jnull, r2)
        | _ => none
      else if c.toNat = 116 then
        match r with
        | 'r' :: 'u' :: 'e' :: r2 => some (.jbool true, r2)
        | _ => none
      else if c.toNat = 102 then
        match r with
        | 'a' :: 'l' :: 's' :: 'e' :: r2 => some (.jbool false, r2)
        | _ => none
      else if c.toNat = 34 then
        (parseStrBody r).map (fun p => (JVal.jstr p.1, p.2))
      else if c.toNat = 91 then
        match skipWs r with
        | c2 :: r2 =>
          if c2.toNat = 93 then some (.jarr [], r2)
          else (jparseElems fuel (c2 :: r2)).map (fun p => (JVal.jarr p.1, p.2))
        | [] => none
      else if c.toNat = 123 then
        match skipWs r with
        | c2 :: r2 =>
          if c2.toNat = 125 then some (.jobj [], r2)
          else (jparseMembers fuel (c2 :: r2)).map (fun p => (JVal.jobj p.1, p.2))
        | [] => none
      else if c.toNat = 45 ∨ isDigitCh c then
        (parseNum (c :: r)).map (fun p => (JVal.jnum p.1, p.2))
      else none

def jparseElems : Nat → List Char → Option (List JVal × List Char)
  | 0, _ => none
  | fuel + 1, cs =>
    match jparseVal fuel cs with
    | some (v, r) =>
      match skipWs r with
      | c :: r2 =>
        if c.toNat = 44 then (jparseElems fuel r2).map (fun p => (v :: p.1, p.2))
        else if c.toNat = 93 then some ([v], r2)
        else none
      | [] => none
    | none => none

def jparseMembers : Nat → List Char → Option (List (List Char × JVal) × List Char)
  | 0, _ => none
  | fuel + 1, cs =>
    match skipWs cs with
    | c :: r =>
      if c.toNat = 34 then
        match parseStrBody r with
        | some (k, r1) =>
          match skipWs r1 with
          | c2 :: r2 =>
            if c2.toNat = 58 then
              match jparseVal fuel r2 with
              | some (v, r3) =>
                match skipWs r3 with
                | c3 :: r4 =>
                  if c3.toNat = 44 then
                    (jparseMembers fuel r4).map (fun p => ((k, v) :: p.1, p.2))
                  else if c3.toNat = 125 then some ([(k, v)], r4)
                  else none
                | [] => none
              | none => none
            else none
          | [] => none
        | none => none
      else none
    | [] => none

end

/-- Parse a complete JSON document.  An optional leading byte-order mark is
skipped and trailing input other than whitespace is rejected, as
nlohmann::json::parse does. -/
def jparse (cs0 : List Char) : Option JVal :=
  let cs := match cs0 with
    | c :: r => if c.toNat = 0xFEFF then r else c :: r
    | [] => []
  match jparseVal (2 * cs.length + 2) cs with
  | some (j, r) => if (skipWs r).isEmpty then some j else none
  | none => none

/-- Object member lookup; a later duplicate key overwrites an earlier one,
matching nlohmann's parser (assignment into a std::map). -/
def jLookup : List (List Char × JVal) → List Char → Option JVal
  | [], _ => none
  | (k, v) :: rest, key =>
    match jLookup rest key with
    | some v2 => some v2
    | none => if k = key then some v else none

/-- Models j[key].get<int>() on a parsed value: succeeds only on an object
whose member is a number, truncating toward zero (the C++ conversion for
stored integers and doubles alike). -/
def jGetInt : JVal → List Char → Option Int
  | .jobj l, key =>
    match jLookup l key with
    | some (.jnum q) => some (ratTrunc q)
    | _ => none
  | _, _ => none

/-- Models j.value(key, "") on a parsed value: absent key defaults to the
empty string, a present non-string member throws (none), and calling it on
a non-object throws (none). -/
def jValueStr : JVal → List Char → Option (List Char)
  | .jobj l, key =>
    match jLookup l key with
    | some (.jstr s) => some s
    | some _ => none
    | none => some []
  | _, _ => none

/-- Models j[key].get&lt;std::string&gt;(): succeeds only when the member is
present and a string (used by the credential parsing in handleLogin /
handleRegister / handleChangePassword). -/
def jGetStr : JVal → List Char → Option (List Char)
  | .jobj l, key =>
    match jLookup l key with
    | some (.jstr s) => some s
    | _ => none
  | _, _ => none

/-- nlohmann dump of a leaf value (the server only ever dumps flat objects
and arrays of strings, so no recursive dump is needed). -/
def dumpLeaf : JVal → List Char
  | .jstr s => dumpStr s
  | .jnum q => intChars q.num
  | .jbool true => ['t', 'r', 'u', 'e']
  | .jbool false => ['f', 'a', 'l', 's', 'e']
  | .jnull => ['n', 'u', 'l', 'l']
  | _ => []

/-- nlohmann dump of the member list of a flat object (keys must be listed
in sorted order, as std::map iteration produces them). -/
def dumpMembersFlat : List (List Char × JVal) → List Char
  | [] => []
  | [(k, v)] => dumpStr k ++ ':' :: dumpLeaf v
  | (k, v) :: rest => dumpStr k ++ ':' :: (dumpLeaf v ++ ',' :: dumpMembersFlat rest)

/-- nlohmann dump of a flat object with default (compact) separators. -/
def dumpFlatObj (ms : List (List Char × JVal)) : List Char :=
  '{' :: (dumpMembersFlat ms ++ ['}'])

/-- nlohmann dump of an array of strings (used for the online list and the
banned/muted lists). -/
def dumpStrArr : List (List Char) → List Char
  | [] => []
  | [s] => dumpStr s
  | s :: rest => dumpStr s ++ ',' :: dumpStrArr rest

def dumpStrArrFull (l : List (List Char)) : List Char := '[' :: (dumpStrArr l ++ [']'])

/-- A value the server writes into one of its flat JSON objects: a string or
an integral number. -/
def flatLeaf : JVal → Prop
  | .jstr _ => True
  | .jnum q => q.den = 1
  | _ => False

/-! ### Protocol layer (src/common/Protocol.h / Protocol.cpp)

Message carries the enum value as a plain Int (the C++ enum is switch-ed on
and cast to int for the wire).  serialize takes the ambient current-time
string as an explicit argument, since Protocol.cpp substitutes
getCurrentTimestamp() when msg.timestamp is empty. -/
namespace MsgType

def REGISTER : Int := 1
def LOGIN : Int := 2
def LOGOUT : Int := 3
def CHANGE_PASSWORD : Int := 4
def MSG_GLOBAL : Int := 10
def MSG_PRIVATE : Int := 11
def ONLINE_LIST : Int := 20
def USER_STATUS : Int := 21
def USER_INFO : Int := 22
def KICK_USER : Int := 30
def BAN_USER : Int := 31
def UNBAN_USER : Int := 32
def MUTE_USER : Int := 33
def UNMUTE_USER : Int := 34
def PROMOTE_USER : Int := 35
def DEMOTE_USER : Int := 36
def GET_ALL_USERS : Int := 37
def GET_BANNED_LIST : Int := 38
def GET_MUTED_LIST : Int := 39
def KICKED : Int := 40
def BANNED : Int := 41
def MUTED : Int := 42
def UNMUTED : Int := 43
def OK : Int := 100
def ERROR : Int := 101
def PING : Int := 200
def PONG : Int := 201

end MsgType

/-- Protocol::Message; the default constructor gives type OK and empty
strings. -/
structure Message where
  type : Int := MsgType.OK
  sender : String := ""
  receiver : String := ""
  content : String := ""
  timestamp : String := ""
  extra : String := ""
deriving DecidableEq, Repr

/-- The JSON object serialize builds, with keys in std::map (alphabetical)
order as nlohmann dumps them; an empty timestamp is replaced by the current
time, as Protocol.cpp line 24 does. -/
def msgMembers (now : String) (m : Message) : List (List Char × JVal) :=
  [("content".data, .jstr m.content.data),
   ("extra".data, .jstr m.extra.data),
   ("receiver".data, .jstr m.receiver.data),
   ("sender".data, .jstr m.sender.data),
   ("timestamp".data, .jstr (if m.timestamp = "" then now else m.timestamp).data),
   ("type".data, .jnum (m.type : Rat))]

def payloadChars (now : String) (m : Message) : List Char := dumpFlatObj (msgMembers now m)

def payloadBytes (now : String) (m : Message) : List Nat := utf8Encode (payloadChars now m)

/-- 4-byte big-endian length prefix. -/
def be32 (n : Nat) : List Nat := [n / 2 ^ 24 % 256, n / 2 ^ 16 % 256, n / 2 ^ 8 % 256, n % 256]

/-- Protocol::serialize: length prefix (the size cast to uint32_t, hence the
mod 2^32) followed by the payload bytes that fit the declared length. -/
def serialize (now : String) (m : Message) : List Nat :=
  let payload := payloadBytes now m
  let length := payload.length % 2 ^ 32
  be32 length ++ payload.take length

/-- The result of throwing inside deserialize: the catch block overwrites
type and content on whatever fields were already assigned.  The detail
string stands in for the C++ exception's what() text; the code and spec
only depend on the "Parse error: " prefix. -/
def parseErr (m : Message) (detail : String) : Message :=
  { m with type := MsgType.ERROR, content := "Parse error: " ++ detail }

/-- Protocol::deserialize: parse the JSON payload; j["type"].get<int>() and
the five j.value(key, "") reads in source order, with the catch block
modelled by parseErr at the first failing step. -/
def deserialize (data : List Nat) : Message :=
  let m0 : Message := {}
  match utf8Decode data with
  | none => parseErr m0 "invalid UTF-8"
  | some chars =>
    match jparse chars with
    | none => parseErr m0 "syntax error"
    | some j =>
      match jGetInt j "type".data with
      | none => parseErr m0 "type"
      | some t =>
        let m1 := { m0 with type := t }
        match jValueStr j "sender".data with
        | none => parseErr m1 "sender"
        | some snd =>
          let m2 := { m1 with sender := String.mk snd }
          match jValueStr j "receiver".data with
          | none => parseErr m2 "receiver"
          | some rcv =>
            let m3 := { m2 with receiver := String.mk rcv }
            match jValueStr j "content".data with
            | none => parseErr m3 "content"
            | some cnt =>
              let m4 := { m3 with content := String.mk cnt }
              match jValueStr j "timestamp".data with
              | none => parseErr m4 "timestamp"
              | some ts =>
                let m5 := { m4 with timestamp := String.mk ts }
                match jValueStr j "extra".data with
                | none => parseErr m5 "extra"
                | some ex => { m5 with extra := String.mk ex }

/-- MessageBuffer's 1 MiB cap (Protocol.cpp MAX_MESSAGE_SIZE). -/
def MAX_MESSAGE_SIZE : Nat := 1024 * 1024

/-- Big-endian read of the first four buffer bytes. -/
def readLen4 : List Nat → Nat
  | b0 :: b1 :: b2 :: b3 :: _ => b0 * 2 ^ 24 + b1 * 2 ^ 16 + b2 * 2 ^ 8 + b3
  | _ => 0

/-- MessageBuffer::hasCompleteMessage. -/
def hasCompleteMessage (buf : List Nat) : Bool :=
  if buf.length < 4 then false
  else if readLen4 buf > MAX_MESSAGE_SIZE then false
  else decide (4 + readLen4 buf ≤ buf.length)

/-- MessageBuffer::extractMessage, returning the message and the buffer
afterwards.  The oversized branch clears the buffer and reports the
"Message too large or invalid" error; the short branches return a plain
ERROR message and leave the buffer untouched. -/
def extractMessage (buf : List Nat) : Message × List Nat :=
  if buf.length < 4 then ({ type := MsgType.ERROR }, buf)
  else if readLen4 buf > MAX_MESSAGE_SIZE then
    ({ type := MsgType.ERROR, content := "Message too large or invalid" }, [])
  else if buf.length < 4 + readLen4 buf then ({ type := MsgType.ERROR }, buf)
  else (deserialize ((buf.drop 4).take (readLen4 buf)), buf.drop (4 + readLen4 buf))

/-- The drain loop of ClientSession::processData (and ChatClient's receive
loop): while hasCompleteMessage, extractMessage.  Fuel-driven: every
extraction under a true hasCompleteMessage removes at least 4 bytes, so
fuel equal to the buffer length always suffices. -/
def drainAux : Nat → List Nat → List Message × List Nat
  | 0, buf => ([], buf)
  | fuel + 1, buf =>
    if hasCompleteMessage buf then
      let p := extractMessage buf
      let q := drainAux fuel p.2
      (p.1 :: q.1, q.2)
    else ([], buf)

def drainAll (buf : List Nat) : List Message × List Nat := drainAux buf.length buf

/-! ### Framing lemmas -/
/-- The wire constraint under which a frame can ever be drained: its payload
fits the 1 MiB cap (Protocol.cpp rejects larger declared lengths). -/
def wireOk (now : String) (m : Message) : Prop :=
  (payloadBytes now m).length ≤ MAX_MESSAGE_SIZE

/-- The byte stream of a message sequence. -/
def streamOf (now : String) (msgs : List Message) : List Nat :=
  (msgs.map (serialize now)).flatten

/-- The per-read feed loop of the server worker: append a chunk to the
session buffer, drain all complete frames, repeat with the next chunk. -/
def feedAux : List Nat → List (List Nat) → List Message × List Nat
  | buf, [] => ([], buf)
  | buf, c :: cs =>
    let p := drainAll (buf ++ c)
    let q := feedAux p.2 cs
    (p.1 ++ q.1, q.2)

def feedAll (chunks : List (List Nat)) : List Message × List Nat := feedAux [] chunks

/-! ### Account store (src/server/Database.cpp)

The database is modelled as an association list from username to row, in
insertion (rowid) order; the model assumes an initialized store (the server
initializes it at startup before any session runs).  std::hash<std::string>
is implementation-defined; it is modelled by a concrete 64-bit FNV-1a over
the UTF-8 bytes — the development relies only on it being a deterministic
digest, exactly as the C++ code does. -/
structure UserRec where
  pwHash : String
  displayName : String
  role : Int
  banned : Bool
  muted : Bool
  createdAt : String
deriving DecidableEq, Repr

def dbFind : List (String × UserRec) → String → Option UserRec
  | [], _ => none
  | (k, v) :: rest, u => if k = u then some v else dbFind rest u

def dbUpdate (db : List (String × UserRec)) (u : String) (f : UserRec → UserRec) :
    List (String × UserRec) :=
  db.map (fun p => if p.1 = u then (p.1, f p.2) else p)

/-- 64-bit FNV-1a, standing in for the implementation-defined
std::hash<std::string>. -/
def fnv1a : List Nat → Nat → Nat
  | [], h => h
  | b :: bs, h => fnv1a bs ((h ^^^ b % 256) * 1099511628211 % 2 ^ 64)

def stdHashString (s : String) : Nat := fnv1a (utf8Encode s.data) 14695981039346656037

def hex16Chars (n : Nat) : List Char :=
  (List.range 16).map (fun i => hexChar (n / 16 ^ (15 - i) % 16))

/-- Database::hashPassword: salted digest rendered as 16 zero-padded
lowercase hex characters. -/
def hashPassword (password : String) : String :=
  String.mk (hex16Chars (stdHashString (password ++ "chat_salt_2024")))

/-- Database::registerUser: fails when the username exists, otherwise
inserts with hashed password, defaulted display name, role 0 and clear
flags.  (created_at is a server-assigned SQL timestamp, abstracted to the
empty string.) -/
def registerUser (db : List (String × UserRec)) (username password displayName : String) :
    Bool × List (String × UserRec) :=
  match dbFind db username with
  | some _ => (false, db)
  | none =>
    let dispName := if displayName = "" then username else displayName
    (true, db ++ [(username,
      { pwHash := hashPassword password, displayName := dispName, role := 0,
        banned := false, muted := false, createdAt := "" })])

/-- Database::authenticateUser: true iff the row exists and the salted hash
of the supplied password equals the stored hash. -/
def authenticateUser (db : List (String × UserRec)) (username password : String) : Bool :=
  match dbFind db username with
  | some u => decide (hashPassword password = u.pwHash)
  | none => false

def changePassword (db : List (String × UserRec)) (username old new : String) :
    Bool × List (String × UserRec) :=
  if authenticateUser db username old then
    (true, dbUpdate db username (fun r => { r with pwHash := hashPassword new }))
  else (false, db)

def userExists (db : List (String × UserRec)) (username : String) : Bool :=
  (dbFind db username).isSome

def getDisplayName (db : List (String × UserRec)) (username : String) : String :=
  match dbFind db username with
  | some u => u.displayName
  | none => ""

def getUserRole (db : List (String × UserRec)) (username : String) : Int :=
  match dbFind db username with
  | some u => u.role
  | none => -1

def isAdminDb (db : List (String × UserRec)) (username : String) : Bool :=
  decide (getUserRole db username = 1)

def setUserRole (db : List (String × UserRec)) (username : String) (role : Int) :
    Bool × List (String × UserRec) :=
  (userExists db username, dbUpdate db username (fun r => { r with role := role }))

def banUser (db : List (String × UserRec)) (username : String) :
    Bool × List (String × UserRec) :=
  (userExists db username, dbUpdate db username (fun r => { r with banned := true }))

def unbanUser (db : List (String × UserRec)) (username : String) :
    Bool × List (String × UserRec) :=
  (userExists db username, dbUpdate db username (fun r => { r with banned := false }))

def isBanned (db : List (String × UserRec)) (username : String) : Bool :=
  match dbFind db username with
  | some u => u.banned
  | none => false

def muteUser (db : List (String × UserRec)) (username : String) :
    Bool × List (String × UserRec) :=
  (userExists db username, dbUpdate db username (fun r => { r with muted := true }))

def unmuteUser (db : List (String × UserRec)) (username : String) :
    Bool × List (String × UserRec) :=
  (userExists db username, dbUpdate db username (fun r => { r with muted := false }))

def isMuted (db : List (String × UserRec)) (username : String) : Bool :=
  match dbFind db username with
  | some u => u.muted
  | none => false

def getBannedUsers (db : List (String × UserRec)) : List String :=
  (db.filter (fun p => p.2.banned)).map (fun p => p.1)

def getMutedUsers (db : List (String × UserRec)) : List String :=
  (db.filter (fun p => p.2.muted)).map (fun p => p.1)

/-- One appended row of the messages table. -/
structure LogRow where
  sender : String
  receiver : String
  content : String
  mtype : String
deriving DecidableEq, Repr

/-! ### Hub and per-session state (src/server/Server.cpp, ClientSession.cpp)

A session's observable actions are modelled as effects; the hub's
username index (std::map, iterated in sorted order) is the sorted list
online.  Rate limiting uses the steady clock in milliseconds; the C++
duration_cast to whole seconds is the division by 1000. -/
structure SessState where
  authenticated : Bool := false
  username : String := ""
  displayName : String := ""
  rlStart : Nat := 0
  rlCount : Int := 0
deriving DecidableEq, Repr

structure World where
  db : List (String × UserRec) := []
  online : List String := []
  msgLog : List LogRow := []
deriving DecidableEq, Repr

inductive Effect where
  | reply (m : Message) : Effect
  | broadcast (m : Message) : Effect
  | broadcastExceptSelf (m : Message) : Effect
  | sendTo (u : String) (m : Message) : Effect
  | kick (u : String) : Effect
deriving DecidableEq, Repr

/-- Sorted insertion into the username index (std::map operator[]). -/
def insertSorted (u : String) : List String → List String
  | [] => [u]
  | v :: vs => if u = v then v :: vs else if u < v then u :: v :: vs else v :: insertSorted u vs

def isUserOnline (w : World) (u : String) : Bool := w.online.contains u

/-! Protocol.cpp message factories (timestamp = getCurrentTimestamp()). -/
def createOkResponse (now content extra : String) : Message :=
  { type := MsgType.OK, content := content, extra := extra, timestamp := now }

def createErrorResponse (now content : String) : Message :=
  { type := MsgType.ERROR, content := content, timestamp := now }

def createGlobalMessage (now sender content : String) : Message :=
  { type := MsgType.MSG_GLOBAL, sender := sender, content := content, timestamp := now }

def createPrivateMessage (now sender receiver content : String) : Message :=
  { type := MsgType.MSG_PRIVATE, sender := sender, receiver := receiver, content := content,
    timestamp := now }

def createOnlineListMessage (now : String) (users : List String) : Message :=
  { type := MsgType.ONLINE_LIST, extra := String.mk (dumpStrArrFull (users.map String.data)),
    timestamp := now }

def createUserStatusMessage (now username : String) (isOnline : Bool) : Message :=
  { type := MsgType.USER_STATUS, sender := username,
    content := if isOnline then "online" else "offline", timestamp := now }

/-- ClientSession.h rate-limit constants. -/
def RATE_LIMIT_MAX_MESSAGES : Int := 10

def RATE_LIMIT_WINDOW_SECONDS : Nat := 1

/-- ClientSession::checkRateLimit: reset the window (counting this frame)
once a full second has elapsed, otherwise count the frame and reject when
the count exceeds the maximum. -/
def checkRateLimit (nowMs : Nat) (s : SessState) : Bool × SessState :=
  let elapsed := (nowMs - s.rlStart) / 1000
  if elapsed ≥ RATE_LIMIT_WINDOW_SECONDS then
    (true, { s with rlStart := nowMs, rlCount := 1 })
  else
    let c := s.rlCount + 1
    if c > RATE_LIMIT_MAX_MESSAGES then (false, { s with rlCount := c })
    else (true, { s with rlCount := c })

/-- Byte length of a std::string (the C++ length() the validation checks
use counts bytes, not code points). -/
def byteLen (s : String) : Nat := (utf8Encode s.data).length

def handleRegister (now : String) (s : SessState) (w : World) (msg : Message) :
    SessState × World × List Effect :=
  match jparse msg.content.data with
  | none => (s, w, [.reply (createErrorResponse now "Invalid request format")])
  | some j =>
    match jGetStr j "username".data, jGetStr j "password".data with
    | some uc, some pc =>
      let username := String.mk uc
      let password := String.mk pc
      if username = "" ∨ password = "" then
        (s, w, [.reply (createErrorResponse now "Username and password are required")])
      else if byteLen username < 3 ∨ byteLen username > 20 then
        (s, w, [.reply (createErrorResponse now "Username must be 3-20 characters")])
      else if byteLen password < 4 then
        (s, w, [.reply (createErrorResponse now "Password must be at least 4 characters")])
      else
        match registerUser w.db username password "" with
        | (true, db2) =>
            ({ s with authenticated := s.authenticated }, { w with db := db2 },
              [.reply (createOkResponse now "Registration successful" "")])
        | (false, _) =>
            (s, w, [.reply (createErrorResponse now "Username already exists")])
    | _, _ => (s, w, [.reply (createErrorResponse now "Invalid request format")])

def handleLogin (now : String) (s : SessState) (w : World) (msg : Message) :
    SessState × World × List Effect :=
  if s.authenticated then
    (s, w, [.reply (createErrorResponse now "Already logged in")])
  else
    match jparse msg.content.data with
    | none => (s, w, [.reply (createErrorResponse now "Invalid request format")])
    | some j =>
      match jGetStr j "username".data, jGetStr j "password".data with
      | some uc, some pc =>
        let username := String.mk uc
        let password := String.mk pc
        if isUserOnline w username then
          (s, w, [.reply (createErrorResponse now "User already logged in from another location")])
        else if isBanned w.db username then
          (s, w, [.reply (createErrorResponse now "Your account has been banned")])
        else if authenticateUser w.db username password then
          let displayName := getDisplayName w.db username
          let s2 := { s with authenticated := true, username := username, displayName := displayName }
          let w2 := { w with online := insertSorted username w.online }
          let extra := String.mk (dumpFlatObj
            [("displayName".data, .jstr displayName.data),
             ("isMuted".data, .jbool (isMuted w.db username)),
             ("role".data, .jnum (getUserRole w.db username : Rat)),
             ("username".data, .jstr username.data)])
          (s2, w2,
            [.reply (createOkResponse now "Login successful" extra),
             .broadcast (createUserStatusMessage now username true),
             .reply (createOnlineListMessage now w2.online)])
        else
          (s, w, [.reply (createErrorResponse now "Invalid username or password")])
      | _, _ => (s, w, [.reply (createErrorResponse now "Invalid request format")])

def handleLogout (now : String) (s : SessState) (w : World) :
    SessState × World × List Effect :=
  if ¬ s.authenticated then
    (s, w, [.reply (createErrorResponse now "Not logged in")])
  else
    ({ s with authenticated := false, username := "", displayName := "" },
     { w with online := w.online.erase s.username },
     [.broadcastExceptSelf (createUserStatusMessage now s.username false),
      .reply (createOkResponse now "Logged out successfully" "")])

def handleChangePassword (now : String) (s : SessState) (w : World) (msg : Message) :
    SessState × World × List Effect :=
  if ¬ s.authenticated then
    (s, w, [.reply (createErrorResponse now "Must be logged in to change password")])
  else
    match jparse msg.content.data with
    | none => (s, w, [.reply (createErrorResponse now "Invalid request format")])
    | some j =>
      match jGetStr j "oldPassword".data, jGetStr j "newPassword".data with
      | some oc, some nc =>
        let oldPassword := String.mk oc
        let newPassword := String.mk nc
        if byteLen newPassword < 4 then
          (s, w, [.reply (createErrorResponse now "New password must be at least 4 characters")])
        else
          match changePassword w.db s.username oldPassword newPassword with
          | (true, db2) =>
              (s, { w with db := db2 },
                [.reply (createOkResponse now "Password changed successfully" "")])
          | (false, _) =>
              (s, w, [.reply (createErrorResponse now "Incorrect old password")])
      | _, _ => (s, w, [.reply (createErrorResponse now "Invalid request format")])

def handleGlobalMessage (nowMs : Nat) (now : String) (s : SessState) (w : World)
    (msg : Message) : SessState × World × List Effect :=
  if ¬ s.authenticated then
    (s, w, [.reply (createErrorResponse now "Must be logged in to send messages")])
  else if isMuted w.db s.username then
    (s, w, [.reply (createErrorResponse now "You are muted and cannot send messages")])
  else
    match checkRateLimit nowMs s with
    | (false, s2) =>
        (s2, w, [.reply (createErrorResponse now
          "Rate limit exceeded. Please wait before sending more messages.")])
    | (true, s2) =>
        if msg.content = "" then (s2, w, [])
        else
          (s2, { w with msgLog := w.msgLog
              ++ [{ sender := s.username, receiver := "", content := msg.content,
                    mtype := "global" }] },
            [.broadcast (createGlobalMessage now s.username msg.content)])

def handlePrivateMessage (nowMs : Nat) (now : String) (s : SessState) (w : World)
    (msg : Message) : SessState × World × List Effect :=
  if ¬ s.authenticated then
    (s, w, [.reply (createErrorResponse now "Must be logged in to send messages")])
  else if isMuted w.db s.username then
    (s, w, [.reply (createErrorResponse now "You are muted and cannot send messages")])
  else
    match checkRateLimit nowMs s with
    | (false, s2) =>
        (s2, w, [.reply (createErrorResponse now
          "Rate limit exceeded. Please wait before sending more messages.")])
    | (true, s2) =>
        if msg.receiver = "" then
          (s2, w, [.reply (createErrorResponse now "Receiver not specified")])
        else if msg.content = "" then (s2, w, [])
        else if msg.receiver = s.username then
          (s2, w, [.reply (createErrorResponse now "Cannot send message to yourself")])
        else
          let w2 := { w with msgLog := w.msgLog
              ++ [{ sender := s.username, receiver := msg.receiver, content := msg.content,
                    mtype := "private" }] }
          let privateMsg := createPrivateMessage now s.username msg.receiver msg.content
          if isUserOnline w msg.receiver then
            (s2, w2, [.sendTo msg.receiver privateMsg, .reply privateMsg])
          else
            (s2, w2, [.reply (createErrorResponse now ("User not online: " ++ msg.receiver))])

def dbInsertByName (p : String × UserRec) : List (String × UserRec) → List (String × UserRec)
  | [] => [p]
  | q :: qs => if p.1 < q.1 then p :: q :: qs else q :: dbInsertByName p qs

/-- Database::getAllUsers reads ORDER BY username. -/
def dbSortByName : List (String × UserRec) → List (String × UserRec)
  | [] => []
  | p :: ps => dbInsertByName p (dbSortByName ps)

/-- The per-user JSON object of GET_ALL_USERS / USER_INFO replies (keys in
std::map order). -/
def userJson (w : World) (uname : String) (u : UserRec) : List Char :=
  dumpFlatObj
    [("createdAt".data, .jstr u.createdAt.data),
     ("displayName".data, .jstr u.displayName.data),
     ("isBanned".data, .jbool u.banned),
     ("isMuted".data, .jbool u.muted),
     ("isOnline".data, .jbool (isUserOnline w uname)),
     ("role".data, .jnum (u.role : Rat)),
     ("username".data, .jstr uname.data)]

def dumpArrOf : List (List Char) → List Char
  | [] => []
  | [x] => x
  | x :: rest => x ++ ',' :: dumpArrOf rest

def handleKickUser (now : String) (s : SessState) (w : World) (msg : Message) :
    SessState × World × List Effect :=
  if ¬ s.authenticated then
    (s, w, [.reply (createErrorResponse now "Must be logged in")])
  else if ¬ isAdminDb w.db s.username then
    (s, w, [.reply (createErrorResponse now "Admin privileges required")])
  else if msg.receiver = "" then
    (s, w, [.reply (createErrorResponse now "Target user not specified")])
  else if msg.receiver = s.username then
    (s, w, [.reply (createErrorResponse now "Cannot kick yourself")])
  else if ¬ isUserOnline w msg.receiver then
    (s, w, [.reply (createErrorResponse now ("User not online: " ++ msg.receiver))])
  else
    (s, { w with online := w.online.erase msg.receiver },
     [.sendTo msg.receiver
        { type := MsgType.KICKED, content := "You have been kicked by " ++ s.username },
      .kick msg.receiver,
      .reply (createOkResponse now ("User kicked: " ++ msg.receiver) ""),
      .broadcast (createUserStatusMessage now msg.receiver false)])

def handleBanUser (now : String) (s : SessState) (w : World) (msg : Message) :
    SessState × World × List Effect :=
  if ¬ s.authenticated then
    (s, w, [.reply (createErrorResponse now "Must be logged in")])
  else if ¬ isAdminDb w.db s.username then
    (s, w, [.reply (createErrorResponse now "Admin privileges required")])
  else if msg.receiver = "" then
    (s, w, [.reply (createErrorResponse now "Target user not specified")])
  else if msg.receiver = s.username then
    (s, w, [.reply (createErrorResponse now "Cannot ban yourself")])
  else if isAdminDb w.db msg.receiver then
    (s, w, [.reply (createErrorResponse now "Cannot ban an admin")])
  else if ¬ userExists w.db msg.receiver then
    (s, w, [.reply (createErrorResponse now ("User not found: " ++ msg.receiver))])
  else
    match banUser w.db msg.receiver with
    | (true, db2) =>
        if isUserOnline w msg.receiver then
          (s, { w with db := db2, online := w.online.erase msg.receiver },
           [.sendTo msg.receiver
              { type := MsgType.BANNED, content := "You have been banned by " ++ s.username },
            .kick msg.receiver,
            .broadcast (createUserStatusMessage now msg.receiver false),
            .reply (createOkResponse now ("User banned: " ++ msg.receiver) "")])
        else
          (s, { w with db := db2 },
           [.reply (createOkResponse now ("User banned: " ++ msg.receiver) "")])
    | (false, _) =>
        (s, w, [.reply (createErrorResponse now "Failed to ban user")])

def handleUnbanUser (now : String) (s : SessState) (w : World) (msg : Message) :
    SessState × World × List Effect :=
  if ¬ s.authenticated then
    (s, w, [.reply (createErrorResponse now "Must be logged in")])
  else if ¬ isAdminDb w.db s.username then
    (s, w, [.reply (createErrorResponse now "Admin privileges required")])
  else if msg.receiver = "" then
    (s, w, [.reply (createErrorResponse now "Target user not specified")])
  else if ¬ userExists w.db msg.receiver then
    (s, w, [.reply (createErrorResponse now ("User not found: " ++ msg.receiver))])
  else
    match unbanUser w.db msg.receiver with
    | (true, db2) =>
        (s, { w with db := db2 },
         [.reply (createOkResponse now ("User unbanned: " ++ msg.receiver) "")])
    | (false, _) =>
        (s, w, [.reply (createErrorResponse now "Failed to unban user")])

def handleMuteUser (now : String) (s : SessState) (w : World) (msg : Message) :
    SessState × World × List Effect :=
  if ¬ s.authenticated then
    (s, w, [.reply (createErrorResponse now "Must be logged in")])
  else if ¬ isAdminDb w.db s.username then
    (s, w, [.reply (createErrorResponse now "Admin privileges required")])
  else if msg.receiver = "" then
    (s, w, [.reply (createErrorResponse now "Target user not specified")])
  else if msg.receiver = s.username then
    (s, w, [.reply (createErrorResponse now "Cannot mute yourself")])
  else if isAdminDb w.db msg.receiver then
    (s, w, [.reply (createErrorResponse now "Cannot mute an admin")])
  else if ¬ userExists w.db msg.receiver then
    (s, w, [.reply (createErrorResponse now ("User not found: " ++ msg.receiver))])
  else
    match muteUser w.db msg.receiver with
    | (true, db2) =>
        if isUserOnline w msg.receiver then
          (s, { w with db := db2 },
           [.sendTo msg.receiver
              { type := MsgType.MUTED, content := "You have been muted by " ++ s.username },
            .reply (createOkResponse now ("User muted: " ++ msg.receiver) "")])
        else
          (s, { w with db := db2 },
           [.reply (createOkResponse now ("User muted: " ++ msg.receiver) "")])
    | (false, _) =>
        (s, w, [.reply (createErrorResponse now "Failed to mute user")])

def handleUnmuteUser (now : String) (s : SessState) (w : World) (msg : Message) :
    SessState × World × List Effect :=
  if ¬ s.authenticated then
    (s, w, [.reply (createErrorResponse now "Must be logged in")])
  else if ¬ isAdminDb w.db s.username then
    (s, w, [.reply (createErrorResponse now "Admin privileges required")])
  else if msg.receiver = "" then
    (s, w, [.reply (createErrorResponse now "Target user not specified")])
  else if ¬ userExists w.db msg.receiver then
    (s, w, [.reply (createErrorResponse now ("User not found: " ++ msg.receiver))])
  else
    match unmuteUser w.db msg.receiver with
    | (true, db2) =>
        if isUserOnline w msg.receiver then
          (s, { w with db := db2 },
           [.sendTo msg.receiver
              { type := MsgType.UNMUTED, content := "You have been unmuted by " ++ s.username },
            .reply (createOkResponse now ("User unmuted: " ++ msg.receiver) "")])
        else
          (s, { w with db := db2 },
           [.reply (createOkResponse now ("User unmuted: " ++ msg.receiver) "")])
    | (false, _) =>
        (s, w, [.reply (createErrorResponse now "Failed to unmute user")])

def handlePromoteUser (now : String) (s : SessState) (w : World) (msg : Message) :
    SessState × World × List Effect :=
  if ¬ s.authenticated then
    (s, w, [.reply (createErrorResponse now "Must be logged in")])
  else if ¬ isAdminDb w.db s.username then
    (s, w, [.reply (createErrorResponse now "Admin privileges required")])
  else if msg.receiver = "" then
    (s, w, [.reply (createErrorResponse now "Target user not specified")])
  else if ¬ userExists w.db msg.receiver then
    (s, w, [.reply (createErrorResponse now ("User not found: " ++ msg.receiver))])
  else if isAdminDb w.db msg.receiver then
    (s, w, [.reply (createErrorResponse now "User is already an admin")])
  else
    match setUserRole w.db msg.receiver 1 with
    | (true, db2) =>
        (s, { w with db := db2 },
         [.reply (createOkResponse now ("User promoted to admin: " ++ msg.receiver) "")])
    | (false, _) =>
        (s, w, [.reply (createErrorResponse now "Failed to promote user")])

def handleDemoteUser (now : String) (s : SessState) (w : World) (msg : Message) :
    SessState × World × List Effect :=
  if ¬ s.authenticated then
    (s, w, [.reply (createErrorResponse now "Must be logged in")])
  else if ¬ isAdminDb w.db s.username then
    (s, w, [.reply (createErrorResponse now "Admin privileges required")])
  else if msg.receiver = "" then
    (s, w, [.reply (createErrorResponse now "Target user not specified")])
  else if msg.receiver = s.username then
    (s, w, [.reply (createErrorResponse now "Cannot demote yourself")])
  else if ¬ userExists w.db msg.receiver then
    (s, w, [.reply (createErrorResponse now ("User not found: " ++ msg.receiver))])
  else if ¬ isAdminDb w.db msg.receiver then
    (s, w, [.reply (createErrorResponse now "User is not an admin")])
  else
    match setUserRole w.db msg.receiver 0 with
    | (true, db2) =>
        (s, { w with db := db2 },
         [.reply (createOkResponse now ("User demoted from admin: " ++ msg.receiver) "")])
    | (false, _) =>
        (s, w, [.reply (createErrorResponse now "Failed to demote user")])

def handleGetAllUsers (now : String) (s : SessState) (w : World) :
    SessState × World × List Effect :=
  if ¬ s.authenticated then
    (s, w, [.reply (createErrorResponse now "Must be logged in")])
  else if ¬ isAdminDb w.db s.username then
    (s, w, [.reply (createErrorResponse now "Admin privileges required")])
  else
    let users := dbSortByName w.db
    let extra := String.mk ('[' :: (dumpArrOf (users.map (fun p => userJson w p.1 p.2)) ++ [']']))
    (s, w, [.reply { type := MsgType.GET_ALL_USERS, extra := extra }])

def handleGetBannedList (now : String) (s : SessState) (w : World) :
    SessState × World × List Effect :=
  if ¬ s.authenticated then
    (s, w, [.reply (createErrorResponse now "Must be logged in")])
  else if ¬ isAdminDb w.db s.username then
    (s, w, [.reply (createErrorResponse now "Admin privileges required")])
  else
    let resp : Message := { type := MsgType.GET_BANNED_LIST, extra := String.mk (dumpStrArrFull ((getBannedUsers w.db).map String.data)) }
    (s, w, [.reply resp])

def handleGetMutedList (now : String) (s : SessState) (w : World) :
    SessState × World × List Effect :=
  if ¬ s.authenticated then
    (s, w, [.reply (createErrorResponse now "Must be logged in")])
  else if ¬ isAdminDb w.db s.username then
    (s, w, [.reply (createErrorResponse now "Admin privileges required")])
  else
    let resp : Message := { type := MsgType.GET_MUTED_LIST, extra := String.mk (dumpStrArrFull ((getMutedUsers w.db).map String.data)) }
    (s, w, [.reply resp])

def handleUserInfo (now : String) (s : SessState) (w : World) (msg : Message) :
    SessState × World × List Effect :=
  if ¬ s.authenticated then
    (s, w, [.reply (createErrorResponse now "Must be logged in")])
  else
    let target := if msg.receiver = "" then s.username else msg.receiver
    if ¬ userExists w.db target then
      (s, w, [.reply (createErrorResponse now ("User not found: " ++ target))])
    else
      match dbFind w.db target with
      | some u =>
          let resp : Message := { type := MsgType.USER_INFO, extra := String.mk (userJson w target u) }
          (s, w, [.reply resp])
      | none =>
          let ghost : UserRec := { pwHash := "", displayName := target, role := 0, banned := false, muted := false, createdAt := "" }
          let resp : Message := { type := MsgType.USER_INFO, extra := String.mk (userJson w target ghost) }
          (s, w, [.reply resp])

/-- ClientSession::handleMessage: dispatch on the frame's type code. -/
def handleMessage (nowMs : Nat) (now : String) (s : SessState) (w : World) (msg : Message) :
    SessState × World × List Effect :=
  if msg.type = MsgType.REGISTER then handleRegister now s w msg
  else if msg.type = MsgType.LOGIN then handleLogin now s w msg
  else if msg.type = MsgType.LOGOUT then handleLogout now s w
  else if msg.type = MsgType.CHANGE_PASSWORD then handleChangePassword now s w msg
  else if msg.type = MsgType.MSG_GLOBAL then handleGlobalMessage nowMs now s w msg
  else if msg.type = MsgType.MSG_PRIVATE then handlePrivateMessage nowMs now s w msg
  else if msg.type = MsgType.PING then (s, w, [.reply { type := MsgType.PONG }])
  else if msg.type = MsgType.KICK_USER then handleKickUser now s w msg
  else if msg.type = MsgType.BAN_USER then handleBanUser now s w msg
  else if msg.type = MsgType.UNBAN_USER then handleUnbanUser now s w msg
  else if msg.type = MsgType.MUTE_USER then handleMuteUser now s w msg
  else if msg.type = MsgType.UNMUTE_USER then handleUnmuteUser now s w msg
  else if msg.type = MsgType.PROMOTE_USER then handlePromoteUser now s w msg
  else if msg.type = MsgType.DEMOTE_USER then handleDemoteUser now s w msg
  else if msg.type = MsgType.GET_ALL_USERS then handleGetAllUsers now s w
  else if msg.type = MsgType.GET_BANNED_LIST then handleGetBannedList now s w
  else if msg.type = MsgType.GET_MUTED_LIST then handleGetMutedList now s w
  else if msg.type = MsgType.USER_INFO then handleUserInfo now s w msg
  else (s, w, [.reply (createErrorResponse now "Unknown command")])

/-! ### Claim theorems -/
/-- Well-formedness of a message for the wire: its JSON payload fits the
32-bit length prefix that serialize writes. -/
def wellFormedMsg (now : String) (m : Message) : Prop :=
  (payloadBytes now m).length < 2 ^ 32

/-- Number of accepted frames and final session state after a sequence of
checkRateLimit calls at the given times. -/
def rlRun (s : SessState) : List Nat → Nat × SessState
  | [] => (0, s)
  | t :: ts =>
    let r := checkRateLimit t s
    let rest := rlRun r.2 ts
    ((if r.1 then 1 else 0) + rest.1, rest.2)

theorem char_valid_nat (c : Char) :
    c.toNat < 0xD800 ∨ (0xDFFF < c.toNat ∧ c.toNat < 0x110000) := c.valid

theorem charOfNat_toNat (c : Char) : Char.ofNat c.toNat = c := Char.ofNat_toNat c

theorem utf8DecodeOne_encodeChar (c : Char) (r : List Nat) :
    utf8DecodeOne (utf8EncodeChar c ++ r) = some (c, r) := by
  have hv := char_valid_nat c
  by_cases h1 : c.toNat < 0x80
  · have e : utf8EncodeChar c = [c.toNat] := by
      unfold utf8EncodeChar; rw [if_pos h1]
    rw [e]
    show utf8DecodeOne (c.toNat :: r) = _
    simp only [utf8DecodeOne]
    rw [if_pos h1, charOfNat_toNat]
  · by_cases h2 : c.toNat < 0x800
    · have e : utf8EncodeChar c = [0xC0 + c.toNat / 64, 0x80 + c.toNat % 64] := by
        unfold utf8EncodeChar; rw [if_neg h1, if_pos h2]
      rw [e]
      show utf8DecodeOne ((0xC0 + c.toNat / 64) :: (0x80 + c.toNat % 64) :: r) = _
      simp only [utf8DecodeOne]
      rw [if_neg (by omega), if_neg (by omega), if_pos (by omega)]
      have hc : isContByte (0x80 + c.toNat % 64) = true := by
        simp only [isContByte, Bool.and_eq_true, decide_eq_true_eq]; omega
      rw [if_pos hc]
      have hn : (0xC0 + c.toNat / 64 - 0xC0) * 64 + (0x80 + c.toNat % 64 - 0x80) = c.toNat := by
        omega
      rw [hn, charOfNat_toNat]
    · by_cases h3 : c.toNat < 0x10000
      · have e : utf8EncodeChar c =
            [0xE0 + c.toNat / 4096, 0x80 + c.toNat / 64 % 64, 0x80 + c.toNat % 64] := by
          unfold utf8EncodeChar; rw [if_neg h1, if_neg h2, if_pos h3]
        rw [e]
        show utf8DecodeOne
            ((0xE0 + c.toNat / 4096) :: (0x80 + c.toNat / 64 % 64) :: (0x80 + c.toNat % 64) :: r)
            = _
        simp only [utf8DecodeOne]
        rw [if_neg (by omega), if_neg (by omega), if_neg (by omega), if_pos (by omega)]
        have hc : (isContByte (0x80 + c.toNat / 64 % 64) && isContByte (0x80 + c.toNat % 64))
            = true := by
          simp only [isContByte, Bool.and_eq_true, decide_eq_true_eq]; omega
        rw [if_pos hc]
        have hn : (0xE0 + c.toNat / 4096 - 0xE0) * 4096 + (0x80 + c.toNat / 64 % 64 - 0x80) * 64
            + (0x80 + c.toNat % 64 - 0x80) = c.toNat := by omega
        rw [hn]
        rw [if_neg (by omega), if_neg (by simp only [Bool.and_eq_true, decide_eq_true_eq]; omega)]
        rw [charOfNat_toNat]
      · have h4 : c.toNat < 0x110000 := by omega
        have e : utf8EncodeChar c = [0xF0 + c.toNat / 262144, 0x80 + c.toNat / 4096 % 64,
            0x80 + c.toNat / 64 % 64, 0x80 + c.toNat % 64] := by
          unfold utf8EncodeChar; rw [if_neg h1, if_neg h2, if_neg h3]
        rw [e]
        show utf8DecodeOne ((0xF0 + c.toNat / 262144) :: (0x80 + c.toNat / 4096 % 64) ::
            (0x80 + c.toNat / 64 % 64) :: (0x80 + c.toNat % 64) :: r) = _
        simp only [utf8DecodeOne]
        rw [if_neg (by omega), if_neg (by omega), if_neg (by omega), if_neg (by omega),
          if_pos (by omega)]
        have hc : (isContByte (0x80 + c.toNat / 4096 % 64) && isContByte (0x80 + c.toNat / 64 % 64)
            && isContByte (0x80 + c.toNat % 64)) = true := by
          simp only [isContByte, Bool.and_eq_true, decide_eq_true_eq]
          refine ⟨⟨?_, ?_⟩, ?_⟩ <;> omega
        rw [if_pos hc]
        have hn : (0xF0 + c.toNat / 262144 - 0xF0) * 262144 + (0x80 + c.toNat / 4096 % 64 - 0x80)
            * 4096 + (0x80 + c.toNat / 64 % 64 - 0x80) * 64 + (0x80 + c.toNat % 64 - 0x80)
            = c.toNat := by omega
        rw [hn]
        rw [if_neg (by omega), if_neg (by omega), charOfNat_toNat]

theorem utf8EncodeChar_ne_nil (c : Char) : utf8EncodeChar c ≠ [] := by
  by_cases h1 : c.toNat < 0x80
  · simp [utf8EncodeChar, h1]
  · by_cases h2 : c.toNat < 0x800
    · simp [utf8EncodeChar, h1, h2]
    · by_cases h3 : c.toNat < 0x10000
      · simp [utf8EncodeChar, h1, h2, h3]
      · simp [utf8EncodeChar, h1, h2, h3]

theorem utf8DecodeAux_encodeChar (f : Nat) (c : Char) (r : List Nat) :
    utf8DecodeAux (f + 1) (utf8EncodeChar c ++ r)
      = (utf8DecodeAux f r).map (fun cs => c :: cs) := by
  obtain ⟨x, xs, hx⟩ : ∃ x xs, utf8EncodeChar c ++ r = x :: xs := by
    cases hxx : utf8EncodeChar c ++ r with
    | nil => exact absurd (List.append_eq_nil.mp hxx).1 (utf8EncodeChar_ne_nil c)
    | cons x xs => exact ⟨x, xs, rfl⟩
  rw [hx]
  show (match utf8DecodeOne (x :: xs) with
    | some (c, rest) => (utf8DecodeAux f rest).map (fun cs => c :: cs)
    | none => none) = _
  rw [← hx, utf8DecodeOne_encodeChar]

theorem utf8DecodeAux_encode (s : List Char) : ∀ (g : Nat) (r : List Nat),
    utf8DecodeAux (s.length + g) (utf8Encode s ++ r)
      = (utf8DecodeAux g r).map (fun cs => s ++ cs) := by
  induction s with
  | nil =>
      intro g r
      simp [utf8Encode]
  | cons c cs ih =>
      intro g r
      have h1 : utf8Encode (c :: cs) = utf8EncodeChar c ++ utf8Encode cs := by
        simp [utf8Encode]
      have h2 : (c :: cs).length + g = (cs.length + g) + 1 := by simp; omega
      rw [h1, h2, List.append_assoc, utf8DecodeAux_encodeChar, ih g r]
      rw [Option.map_map]
      rfl

theorem utf8Encode_length_ge (s : List Char) : s.length ≤ (utf8Encode s).length := by
  induction s with
  | nil => simp [utf8Encode]
  | cons c cs ih =>
      have h1 : utf8Encode (c :: cs) = utf8EncodeChar c ++ utf8Encode cs := by
        simp [utf8Encode]
      have h2 : 1 ≤ (utf8EncodeChar c).length := by
        cases hxx : utf8EncodeChar c with
        | nil => exact absurd hxx (utf8EncodeChar_ne_nil c)
        | cons x xs => simp
      rw [h1]
      simp only [List.length_append, List.length_cons]
      omega

/-- Round trip: decoding an encoded character sequence gives it back. -/
theorem utf8Decode_encode (s : List Char) : utf8Decode (utf8Encode s) = some s := by
  have hle := utf8Encode_length_ge s
  have hsplit : (utf8Encode s).length = s.length + ((utf8Encode s).length - s.length) := by
    omega
  have hnil : utf8DecodeAux ((utf8Encode s).length - s.length) [] = some [] := by
    cases ((utf8Encode s).length - s.length) <;> rfl
  unfold utf8Decode
  rw [hsplit]
  have := utf8DecodeAux_encode s ((utf8Encode s).length - s.length) []
  rw [List.append_nil] at this
  rw [this, hnil]
  simp

theorem charToNat_ofNat (m : Nat) (h : m < 55296) : (Char.ofNat m).toNat = m := by
  have hv : m.isValidChar := Or.inl h
  rw [Char.ofNat, dif_pos hv]
  show (Char.ofNatAux m hv).toNat = m
  rfl

theorem hexVal_hexChar (k : Nat) (h : k < 16) : hexVal (hexChar k) = some k := by
  interval_cases k <;> decide

theorem escapeChar_length_pos (c : Char) : 0 < (escapeChar c).length := by
  unfold escapeChar
  repeat' split
  all_goals simp

theorem escapeChar_ne_nil (c : Char) : escapeChar c ≠ [] :=
  List.ne_nil_of_length_pos (escapeChar_length_pos c)

theorem escapeStr_length_ge (s : List Char) : s.length ≤ (escapeStr s).length := by
  induction s with
  | nil => simp [escapeStr]
  | cons c cs ih =>
      have h1 : escapeStr (c :: cs) = escapeChar c ++ escapeStr cs := by simp [escapeStr]
      have h2 := escapeChar_length_pos c
      rw [h1]
      simp only [List.length_append, List.length_cons]
      omega

/-- Inverting one escaped character. -/
theorem strStep_escapeChar (c : Char) (t : List Char) :
    strStep (escapeChar c ++ t) = some (some c, t) := by
  by_cases h34 : c.toNat = 34
  · have hc : c = Char.ofNat 34 := by rw [← charOfNat_toNat c, h34]
    subst hc; rfl
  · by_cases h92 : c.toNat = 92
    · have hc : c = Char.ofNat 92 := by rw [← charOfNat_toNat c, h92]
      subst hc; rfl
    · by_cases h8 : c.toNat = 8
      · have hc : c = Char.ofNat 8 := by rw [← charOfNat_toNat c, h8]
        subst hc; rfl
      · by_cases h9 : c.toNat = 9
        · have hc : c = Char.ofNat 9 := by rw [← charOfNat_toNat c, h9]
          subst hc; rfl
        · by_cases h10 : c.toNat = 10
          · have hc : c = Char.ofNat 10 := by rw [← charOfNat_toNat c, h10]
            subst hc; rfl
          · by_cases h12 : c.toNat = 12
            · have hc : c = Char.ofNat 12 := by rw [← charOfNat_toNat c, h12]
              subst hc; rfl
            · by_cases h13 : c.toNat = 13
              · have hc : c = Char.ofNat 13 := by rw [← charOfNat_toNat c, h13]
                subst hc; rfl
              · by_cases h32 : c.toNat < 32
                · have e : escapeChar c ++ t
                      = '\\' :: 'u' :: '0' :: '0' :: hexChar (c.toNat / 16)
                        :: hexChar (c.toNat % 16) :: t := by
                    unfold escapeChar
                    rw [if_neg h34, if_neg h92, if_neg h8, if_neg h9, if_neg h10, if_neg h12,
                      if_neg h13, if_pos h32]
                    rfl
                  have hx : hex4 '0' '0' (hexChar (c.toNat / 16)) (hexChar (c.toNat % 16))
                      = some c.toNat := by
                    unfold hex4
                    rw [hexVal_hexChar _ (by omega), hexVal_hexChar _ (by omega)]
                    show some (((0 * 16 + 0) * 16 + c.toNat / 16) * 16 + c.toNat % 16) = _
                    congr 1
                    omega
                  rw [e]
                  simp only [strStep]
                  rw [if_neg (by decide), if_pos (by decide)]
                  simp only [hx]
                  rw [if_pos (Or.inl (by omega : c.toNat < 55296)), charOfNat_toNat]
                · have e : escapeChar c ++ t = c :: t := by
                    unfold escapeChar
                    rw [if_neg h34, if_neg h92, if_neg h8, if_neg h9, if_neg h10, if_neg h12,
                      if_neg h13, if_neg h32]
                    rfl
                  rw [e]
                  simp only [strStep]
                  rw [if_neg h34, if_neg h92, if_neg (show ¬ c.toNat < 32 by omega)]

theorem parseStrAux_escapeChar (f : Nat) (c : Char) (t : List Char) :
    parseStrAux (f + 1) (escapeChar c ++ t)
      = (parseStrAux f t).map (fun p => (c :: p.1, p.2)) := by
  obtain ⟨x, xs, hx⟩ : ∃ x xs, escapeChar c ++ t = x :: xs := by
    cases hxx : escapeChar c ++ t with
    | nil => exact absurd (List.append_eq_nil.mp hxx).1 (escapeChar_ne_nil c)
    | cons x xs => exact ⟨x, xs, rfl⟩
  rw [hx]
  show (match strStep (x :: xs) with
    | some (none, rest) => some ([], rest)
    | some (some ch, rest) =>
        (parseStrAux f rest).map (fun p : List Char × List Char => (ch :: p.1, p.2))
    | none => none) = _
  rw [← hx, strStep_escapeChar]

theorem parseStrAux_escape (s : List Char) : ∀ (g : Nat) (r : List Char),
    parseStrAux (s.length + (g + 1)) (escapeStr s ++ '"' :: r) = some (s, r) := by
  induction s with
  | nil => intro g r; rfl
  | cons c cs ih =>
      intro g r
      have h1 : escapeStr (c :: cs) = escapeChar c ++ escapeStr cs := by
        simp [escapeStr]
      have h2 : (c :: cs).length + (g + 1) = (cs.length + (g + 1)) + 1 := by
        simp only [List.length_cons]; omega
      rw [h1, h2, List.append_assoc, parseStrAux_escapeChar, ih g r]
      rfl

/-- Inverting a whole escaped string: the body parser returns exactly the
original characters and stops after the closing quote. -/
theorem parseStrBody_escape (s : List Char) (r : List Char) :
    parseStrBody (escapeStr s ++ '"' :: r) = some (s, r) := by
  unfold parseStrBody
  have hge := escapeStr_length_ge s
  have hlen : (escapeStr s ++ '"' :: r).length
      = s.length + ((((escapeStr s).length - s.length) + r.length) + 1) := by
    simp only [List.length_append, List.length_cons]
    omega
  rw [hlen, parseStrAux_escape]

/-! #### Decimal digit lemmas -/
theorem natDigsF_spec (n : Nat) : ∀ (f : Nat) (acc : List Char),
    n ≤ f → natDigsF (f + 1) n acc = natDigs n ++ acc := by
  induction n using Nat.strong_induction_on with
  | _ n ih =>
    intro f acc hf
    by_cases h : n < 10
    · simp only [natDigsF, if_pos h, natDigs]
      rfl
    · obtain ⟨f2, rfl⟩ : ∃ f2, f = f2 + 1 := ⟨f - 1, by omega⟩
      have e1 : natDigsF (f2 + 1 + 1) n acc
          = natDigsF (f2 + 1) (n / 10) (Char.ofNat (48 + n % 10) :: acc) := by
        simp only [natDigsF, if_neg h]
      rw [e1, ih (n / 10) (by omega) f2 _ (by omega)]
      have e2 : natDigs n = natDigs (n / 10) ++ [Char.ofNat (48 + n % 10)] := by
        show natDigsF (n + 1) n [] = _
        obtain ⟨n2, hn2⟩ : ∃ n2, n = n2 + 1 := ⟨n - 1, by omega⟩
        rw [hn2]
        have e3 : natDigsF (n2 + 1 + 1) (n2 + 1) []
            = natDigsF (n2 + 1) ((n2 + 1) / 10) [Char.ofNat (48 + (n2 + 1) % 10)] := by
          simp only [natDigsF]
          rw [if_neg (by omega)]
        rw [e3, ih ((n2 + 1) / 10) (by omega) n2 _ (by omega)]
      rw [e2, List.append_assoc]
      rfl

/-- natDigs in most-significant-digit-last decomposition. -/
theorem natDigs_decomp (n : Nat) : natDigs n
    = (if n < 10 then [] else natDigs (n / 10)) ++ [Char.ofNat (48 + n % 10)] := by
  by_cases h : n < 10
  · rw [if_pos h]
    show natDigsF (n + 1) n [] = _
    simp only [natDigsF, if_pos h]
    rfl
  · rw [if_neg h]
    show natDigsF (n + 1) n [] = _
    obtain ⟨n2, rfl⟩ : ∃ n2, n = n2 + 1 := ⟨n - 1, by omega⟩
    have e3 : natDigsF (n2 + 1 + 1) (n2 + 1) [] = natDigsF (n2 + 1) ((n2 + 1) / 10)
        [Char.ofNat (48 + (n2 + 1) % 10)] := by
      simp only [natDigsF]
      rw [if_neg (by omega)]
    rw [e3, natDigsF_spec ((n2 + 1) / 10) n2 _ (by omega)]

theorem digit_char_toNat (d : Nat) (h : d < 10) : (Char.ofNat (48 + d)).toNat = 48 + d :=
  charToNat_ofNat _ (by omega)

theorem natDigs_all_digits (n : Nat) : ∀ c ∈ natDigs n, isDigitCh c = true := by
  induction n using Nat.strong_induction_on with
  | _ n ih =>
    rw [natDigs_decomp]
    intro c hc
    rw [List.mem_append] at hc
    rcases hc with hc | hc
    · by_cases h : n < 10
      · rw [if_pos h] at hc
        simp at hc
      · rw [if_neg h] at hc
        exact ih (n / 10) (by omega) c hc
    · rw [List.mem_singleton] at hc
      subst hc
      simp only [isDigitCh, Bool.and_eq_true, decide_eq_true_eq]
      rw [digit_char_toNat (n % 10) (by omega)]
      omega

theorem natDigs_ne_nil (n : Nat) : natDigs n ≠ [] := by
  rw [natDigs_decomp]
  simp

theorem digsToNatAux_append (a : Nat) (l1 l2 : List Char) :
    digsToNatAux a (l1 ++ l2) = digsToNatAux (digsToNatAux a l1) l2 := by
  induction l1 generalizing a with
  | nil => rfl
  | cons c cs ih =>
      show digsToNatAux (a * 10 + (c.toNat - 48)) (cs ++ l2) = _
      rw [ih]
      rfl

theorem digsToNat_natDigs (n : Nat) : digsToNat (natDigs n) = n := by
  induction n using Nat.strong_induction_on with
  | _ n ih =>
    rw [natDigs_decomp]
    have hd := digit_char_toNat (n % 10) (by omega)
    by_cases h : n < 10
    · rw [if_pos h]
      show 0 * 10 + ((Char.ofNat (48 + n % 10)).toNat - 48) = n
      rw [hd]
      omega
    · rw [if_neg h]
      show digsToNatAux 0 (natDigs (n / 10) ++ [Char.ofNat (48 + n % 10)]) = n
      rw [digsToNatAux_append]
      have ihv : digsToNatAux 0 (natDigs (n / 10)) = n / 10 := ih (n / 10) (by omega)
      rw [ihv]
      show (n / 10) * 10 + ((Char.ofNat (48 + n % 10)).toNat - 48) = n
      rw [hd]
      omega

theorem natDigs_head_nonzero (n : Nat) (hn : 0 < n) :
    ∃ c t, natDigs n = c :: t ∧ isDigitCh c = true ∧ c.toNat ≠ 48 := by
  induction n using Nat.strong_induction_on with
  | _ n ih =>
    by_cases h : n < 10
    · refine ⟨Char.ofNat (48 + n % 10), [], ?_, ?_, ?_⟩
      · rw [natDigs_decomp, if_pos h]
        rfl
      · simp only [isDigitCh, Bool.and_eq_true, decide_eq_true_eq]
        rw [digit_char_toNat (n % 10) (by omega)]
        omega
      · rw [digit_char_toNat (n % 10) (by omega)]
        omega
    · obtain ⟨c, t, hct, hdig, hnz⟩ := ih (n / 10) (by omega) (by omega)
      refine ⟨c, t ++ [Char.ofNat (48 + n % 10)], ?_, hdig, hnz⟩
      rw [natDigs_decomp, if_neg h, hct]
      rfl

theorem takeDigs_stop (cs : List Char) (h : numStop cs = true) : takeDigs cs = ([], cs) := by
  cases cs with
  | nil => rfl
  | cons c t =>
      simp only [numStop, Bool.not_eq_true'] at h
      simp [takeDigs, h]

theorem takeDigs_run (ds : List Char) (hds : ∀ c ∈ ds, isDigitCh c = true)
    (rest : List Char) (hrest : numStop rest = true) :
    takeDigs (ds ++ rest) = (ds, rest) := by
  induction ds with
  | nil => simpa using takeDigs_stop rest hrest
  | cons c t ih =>
      have hc : isDigitCh c = true := hds c (by simp)
      have ht := ih (fun x hx => hds x (by simp [hx]))
      simp [takeDigs, hc, ht]

theorem numBreak_numStop (cs : List Char) (h : numBreak cs = true) : numStop cs = true := by
  cases cs with
  | nil => rfl
  | cons c t =>
      simp only [numBreak, Bool.not_eq_true', Bool.or_eq_false_iff] at h
      simp [numStop, h.1.1.1]

theorem parseNumExp_break (neg : Bool) (intDs : List Char) (rest : List Char)
    (h : numBreak rest = true) :
    parseNumExp neg intDs [] rest = some (ratOfParts neg (digsToNat intDs) 0, rest) := by
  cases rest with
  | nil =>
      simp only [parseNumExp, List.append_nil, List.length_nil]
      rfl
  | cons c t =>
      simp only [numBreak, Bool.not_eq_true', Bool.or_eq_false_iff,
        decide_eq_false_iff_not] at h
      simp only [parseNumExp]
      rw [if_neg (by push_neg; exact ⟨h.1.2, h.2⟩)]
      simp only [List.append_nil, List.length_nil]
      rfl

theorem parseNumTail_break (neg : Bool) (intDs : List Char) (rest : List Char)
    (h : numBreak rest = true) :
    parseNumTail neg intDs rest = some (ratOfParts neg (digsToNat intDs) 0, rest) := by
  cases rest with
  | nil => exact parseNumExp_break neg intDs [] rfl
  | cons c t =>
      have h2 := h
      simp only [numBreak, Bool.not_eq_true', Bool.or_eq_false_iff,
        decide_eq_false_iff_not] at h2
      simp only [parseNumTail]
      rw [if_neg h2.1.1.2]
      exact parseNumExp_break neg intDs (c :: t) h

theorem ratOfParts_zero_exp (neg : Bool) (m : Nat) :
    ratOfParts neg m 0 = if neg then -(m : Rat) else (m : Rat) := by
  simp [ratOfParts]

/-- Parsing the decimal text of an integer yields exactly that integer (as a
rational) and consumes nothing of the remainder. -/
theorem parseNum_intChars (i : Int) (rest : List Char) (h : numBreak rest = true) :
    parseNum (intChars i ++ rest) = some ((i : Rat), rest) := by
  by_cases hneg : i < 0
  · have e : intChars i ++ rest = Char.ofNat 45 :: (natDigs i.natAbs ++ rest) := by
      simp [intChars, hneg]
    rw [e]
    simp only [parseNum]
    rw [if_pos (charToNat_ofNat 45 (by omega))]
    obtain ⟨c, t, hct, hdig, hnz⟩ := natDigs_head_nonzero i.natAbs (by omega)
    rw [hct]
    simp only [List.cons_append, parseNumBody]
    have hdig2 := hdig
    simp only [isDigitCh, Bool.and_eq_true, decide_eq_true_eq] at hdig2
    rw [if_neg (by omega)]
    rw [if_pos hdig]
    have htake : takeDigs (t ++ rest) = (t, rest) := by
      refine takeDigs_run t ?_ rest (numBreak_numStop rest h)
      intro x hx
      exact natDigs_all_digits i.natAbs x (by rw [hct]; simp [hx])
    rw [htake]
    rw [parseNumTail_break true (c :: t) rest h]
    rw [show c :: t = natDigs i.natAbs from hct.symm, digsToNat_natDigs]
    rw [ratOfParts_zero_exp, if_pos rfl]
    have hcast : ((i.natAbs : Nat) : Rat) = -(i : Rat) := by
      have h5 : ((i.natAbs : Nat) : Int) = -i := by omega
      calc ((i.natAbs : Nat) : Rat) = (((i.natAbs : Nat) : Int) : Rat) := (Int.cast_natCast _).symm
        _ = ((-i : Int) : Rat) := by rw [h5]
        _ = -(i : Rat) := by rw [Int.cast_neg]
    rw [hcast]
    simp
  · have e : intChars i ++ rest = natDigs i.natAbs ++ rest := by
      simp [intChars, hneg]
    rw [e]
    by_cases hz : i = 0
    · subst hz
      have e2 : natDigs (Int.natAbs 0) = [Char.ofNat 48] := by decide
      rw [e2]
      have hd : digsToNat [Char.ofNat 48] = 0 := by decide
      simp only [List.cons_append, List.nil_append, parseNum]
      rw [if_neg (by rw [charToNat_ofNat 48 (by omega)]; omega)]
      simp only [parseNumBody]
      rw [if_pos (charToNat_ofNat 48 (by omega))]
      cases hr : rest with
      | nil =>
          simp only [parseNumTail_break false [Char.ofNat 48] [] rfl, hd, ratOfParts_zero_exp]
          norm_num
      | cons c2 t2 =>
          have h2 := h
          rw [hr] at h2
          simp only [numBreak, Bool.not_eq_true', Bool.or_eq_false_iff,
            decide_eq_false_iff_not] at h2
          have hne : isDigitCh c2 = false := h2.1.1.1
          simp only [hne, Bool.false_eq_true, if_false]
          rw [← hr, parseNumTail_break false [Char.ofNat 48] rest h, hd, ratOfParts_zero_exp]
          norm_num
    · obtain ⟨c, t, hct, hdig, hnz⟩ := natDigs_head_nonzero i.natAbs (by omega)
      rw [hct]
      simp only [List.cons_append, parseNum]
      have hdig2 := hdig
      simp only [isDigitCh, Bool.and_eq_true, decide_eq_true_eq] at hdig2
      rw [if_neg (by omega)]
      simp only [parseNumBody]
      rw [if_neg hnz, if_pos hdig]
      have htake : takeDigs (t ++ rest) = (t, rest) := by
        refine takeDigs_run t ?_ rest (numBreak_numStop rest h)
        intro x hx
        exact natDigs_all_digits i.natAbs x (by rw [hct]; simp [hx])
      rw [htake]
      rw [parseNumTail_break false (c :: t) rest h]
      rw [show c :: t = natDigs i.natAbs from hct.symm, digsToNat_natDigs]
      rw [ratOfParts_zero_exp, if_neg (by simp)]
      have hcast : ((i.natAbs : Nat) : Rat) = (i : Rat) := by
        have h5 : ((i.natAbs : Nat) : Int) = i := by omega
        calc ((i.natAbs : Nat) : Rat) = (((i.natAbs : Nat) : Int) : Rat) := (Int.cast_natCast _).symm
          _ = (i : Rat) := by rw [h5]
      rw [hcast]

/-! ### Round trip: parsing a dumped flat object -/
theorem skipWs_no (c : Char) (r : List Char) (h : isWsCh c = false) :
    skipWs (c :: r) = c :: r := by
  simp [skipWs, h]

theorem jparseVal_str (f : Nat) (s rest : List Char) :
    jparseVal (f + 1) (dumpStr s ++ rest) = some (.jstr s, rest) := by
  have e : dumpStr s ++ rest = '"' :: (escapeStr s ++ ('"' :: rest)) := by
    simp [dumpStr]
  rw [e]
  have hsw : skipWs ('"' :: (escapeStr s ++ ('"' :: rest)))
      = '"' :: (escapeStr s ++ ('"' :: rest)) := skipWs_no _ _ (by decide)
  simp only [jparseVal, hsw]
  rw [if_neg (by decide), if_neg (by decide), if_neg (by decide), if_pos (by decide)]
  rw [parseStrBody_escape]
  rfl

theorem isDigitCh_not_ws (c : Char) (h : isDigitCh c = true) : isWsCh c = false := by
  simp only [isDigitCh, Bool.and_eq_true, decide_eq_true_eq] at h
  simp only [isWsCh, Bool.or_eq_false_iff, decide_eq_false_iff_not]
  omega

theorem jparseVal_int (f : Nat) (i : Int) (rest : List Char) (h : numBreak rest = true) :
    jparseVal (f + 1) (intChars i ++ rest) = some (.jnum (i : Rat), rest) := by
  by_cases hneg : i < 0
  · have e : intChars i ++ rest = Char.ofNat 45 :: (natDigs i.natAbs ++ rest) := by
      simp [intChars, hneg]
    have h45 : (Char.ofNat 45).toNat = 45 := charToNat_ofNat 45 (by omega)
    have hsw : skipWs (Char.ofNat 45 :: (natDigs i.natAbs ++ rest))
        = Char.ofNat 45 :: (natDigs i.natAbs ++ rest) := by
      refine skipWs_no _ _ ?_
      simp only [isWsCh, Bool.or_eq_false_iff, decide_eq_false_iff_not, h45]
      omega
    rw [e]
    simp only [jparseVal, hsw]
    rw [if_neg (by rw [h45]; omega), if_neg (by rw [h45]; omega), if_neg (by rw [h45]; omega),
      if_neg (by rw [h45]; omega), if_neg (by rw [h45]; omega), if_neg (by rw [h45]; omega),
      if_pos (Or.inl h45)]
    rw [← e, parseNum_intChars i rest h]
    rfl
  · cases hnd : natDigs i.natAbs with
    | nil => exact absurd hnd (natDigs_ne_nil _)
    | cons c t =>
        have hdig : isDigitCh c = true := natDigs_all_digits _ c (by rw [hnd]; simp)
        have hdig2 := hdig
        simp only [isDigitCh, Bool.and_eq_true, decide_eq_true_eq] at hdig2
        have e : intChars i ++ rest = c :: (t ++ rest) := by
          simp [intChars, hneg, hnd]
        have hsw : skipWs (c :: (t ++ rest)) = c :: (t ++ rest) :=
          skipWs_no _ _ (isDigitCh_not_ws c hdig)
        rw [e]
        simp only [jparseVal, hsw]
        rw [if_neg (by omega), if_neg (by omega), if_neg (by omega), if_neg (by omega),
          if_neg (by omega), if_neg (by omega), if_pos (Or.inr hdig)]
        rw [← e, parseNum_intChars i rest h]
        rfl

theorem jparseVal_leaf (f : Nat) (v : JVal) (hv : flatLeaf v) (rest : List Char)
    (h : numBreak rest = true) :
    jparseVal (f + 1) (dumpLeaf v ++ rest) = some (v, rest) := by
  cases v with
  | jstr s => exact jparseVal_str f s rest
  | jnum q =>
      have h1 : q.den = 1 := hv
      have hq : ((q.num : Int) : Rat) = q := by
        have h2 := Rat.num_div_den q
        rw [h1] at h2
        simpa using h2
      have e : dumpLeaf (.jnum q) = intChars q.num := rfl
      rw [e, jparseVal_int f q.num rest h, hq]
  | jnull => exact absurd hv (by simp [flatLeaf])
  | jbool b => exact absurd hv (by simp [flatLeaf])
  | jarr l => exact absurd hv (by simp [flatLeaf])
  | jobj l => exact absurd hv (by simp [flatLeaf])

theorem numBreak_brace (rest : List Char) : numBreak ('}' :: rest) = true := by
  simp [numBreak, isDigitCh]

theorem numBreak_comma (rest : List Char) : numBreak (',' :: rest) = true := by
  simp [numBreak, isDigitCh]

theorem jparseMembers_flat : ∀ (ms : List (List Char × JVal)) (f : Nat) (rest : List Char),
    ms ≠ [] → (∀ kv ∈ ms, flatLeaf kv.2) → 2 * ms.length ≤ f →
    jparseMembers f (dumpMembersFlat ms ++ ('}' :: rest)) = some (ms, rest) := by
  intro ms
  induction ms with
  | nil => intro f rest hne _ _; exact absurd rfl hne
  | cons kv ms2 ih =>
      intro f rest _ hflat hf
      obtain ⟨k, v⟩ := kv
      obtain ⟨f1, rfl⟩ : ∃ f1, f = f1 + 1 := ⟨f - 1, by simp at hf; omega⟩
      obtain ⟨f2, hf2⟩ : ∃ f2, f1 = f2 + 1 := ⟨f1 - 1, by simp at hf; omega⟩
      cases ms2 with
      | nil =>
          have e : dumpMembersFlat [(k, v)] ++ ('}' :: rest)
              = '"' :: (escapeStr k ++ ('"' :: (':' :: (dumpLeaf v ++ ('}' :: rest))))) := by
            simp [dumpMembersFlat, dumpStr]
          rw [e]
          have hsw : skipWs ('"' :: (escapeStr k ++ ('"' :: (':' :: (dumpLeaf v ++ ('}' :: rest))))))
              = '"' :: (escapeStr k ++ ('"' :: (':' :: (dumpLeaf v ++ ('}' :: rest))))) :=
            skipWs_no _ _ (by decide)
          simp only [jparseMembers, hsw]
          rw [if_pos (by decide)]
          rw [parseStrBody_escape]
          have hsw2 : skipWs (':' :: (dumpLeaf v ++ ('}' :: rest)))
              = ':' :: (dumpLeaf v ++ ('}' :: rest)) := skipWs_no _ _ (by decide)
          simp only [hsw2]
          rw [if_pos (by decide)]
          rw [hf2, jparseVal_leaf f2 v (hflat (k, v) (by simp)) ('}' :: rest)
            (numBreak_brace rest)]
          have hsw3 : skipWs ('}' :: rest) = '}' :: rest := skipWs_no _ _ (by decide)
          simp only [hsw3]
          rw [if_neg (by decide), if_pos (by decide)]
      | cons kv2 ms3 =>
          have e : dumpMembersFlat ((k, v) :: kv2 :: ms3) ++ ('}' :: rest)
              = '"' :: (escapeStr k ++ ('"' :: (':' :: (dumpLeaf v
                  ++ (',' :: (dumpMembersFlat (kv2 :: ms3) ++ ('}' :: rest))))))) := by
            simp [dumpMembersFlat, dumpStr]
          rw [e]
          have hsw : skipWs ('"' :: (escapeStr k ++ ('"' :: (':' :: (dumpLeaf v
              ++ (',' :: (dumpMembersFlat (kv2 :: ms3) ++ ('}' :: rest))))))))
              = '"' :: (escapeStr k ++ ('"' :: (':' :: (dumpLeaf v
              ++ (',' :: (dumpMembersFlat (kv2 :: ms3) ++ ('}' :: rest))))))) :=
            skipWs_no _ _ (by decide)
          simp only [jparseMembers, hsw]
          rw [if_pos (by decide)]
          rw [parseStrBody_escape]
          have hsw2 : skipWs (':' :: (dumpLeaf v
              ++ (',' :: (dumpMembersFlat (kv2 :: ms3) ++ ('}' :: rest)))))
              = ':' :: (dumpLeaf v ++ (',' :: (dumpMembersFlat (kv2 :: ms3) ++ ('}' :: rest)))) :=
            skipWs_no _ _ (by decide)
          simp only [hsw2]
          rw [if_pos (by decide)]
          rw [hf2, jparseVal_leaf f2 v (hflat (k, v) (by simp))
            (',' :: (dumpMembersFlat (kv2 :: ms3) ++ ('}' :: rest))) (numBreak_comma _)]
          have hsw3 : skipWs (',' :: (dumpMembersFlat (kv2 :: ms3) ++ ('}' :: rest)))
              = ',' :: (dumpMembersFlat (kv2 :: ms3) ++ ('}' :: rest)) :=
            skipWs_no _ _ (by decide)
          simp only [hsw3]
          rw [if_pos (by decide)]
          rw [← hf2]
          rw [ih f1 rest (by simp) (fun x hx => hflat x (by simp [hx]))
            (by simp at hf ⊢; omega)]
          rfl

theorem dumpMembersFlat_length_ge : ∀ ms : List (List Char × JVal),
    ms.length ≤ (dumpMembersFlat ms).length := by
  intro ms
  induction ms with
  | nil => simp [dumpMembersFlat]
  | cons kv ms2 ih =>
      obtain ⟨k, v⟩ := kv
      cases ms2 with
      | nil => simp [dumpMembersFlat, dumpStr]
      | cons kv2 ms3 =>
          have e : dumpMembersFlat ((k, v) :: kv2 :: ms3)
              = dumpStr k ++ ':' :: (dumpLeaf v ++ ',' :: dumpMembersFlat (kv2 :: ms3)) := rfl
          rw [e]
          simp only [List.length_append, List.length_cons, dumpStr] at ih ⊢
          omega

theorem jparseVal_flatObj (ms : List (List Char × JVal)) (f : Nat) (rest : List Char)
    (hne : ms ≠ []) (hflat : ∀ kv ∈ ms, flatLeaf kv.2) (hf : 2 * ms.length ≤ f) :
    jparseVal (f + 1) (dumpFlatObj ms ++ rest) = some (.jobj ms, rest) := by
  have e : dumpFlatObj ms ++ rest = '{' :: (dumpMembersFlat ms ++ ('}' :: rest)) := by
    simp [dumpFlatObj]
  rw [e]
  have hsw : skipWs ('{' :: (dumpMembersFlat ms ++ ('}' :: rest)))
      = '{' :: (dumpMembersFlat ms ++ ('}' :: rest)) := skipWs_no _ _ (by decide)
  simp only [jparseVal, hsw]
  rw [if_neg (by decide), if_neg (by decide), if_neg (by decide), if_neg (by decide),
    if_neg (by decide), if_pos (by decide)]
  obtain ⟨k, v, ms2, rfl⟩ : ∃ k v ms2, ms = (k, v) :: ms2 := by
    cases ms with
    | nil => exact absurd rfl hne
    | cons kv ms2 => exact ⟨kv.1, kv.2, ms2, by simp⟩
  obtain ⟨x, hx⟩ : ∃ x, dumpMembersFlat ((k, v) :: ms2) ++ ('}' :: rest) = '"' :: x := by
    cases ms2 with
    | nil =>
        exact ⟨escapeStr k ++ '"' :: ':' :: (dumpLeaf v ++ '}' :: rest), by
          simp [dumpMembersFlat, dumpStr]⟩
    | cons kv2 ms3 =>
        exact ⟨escapeStr k ++ '"' :: ':' :: (dumpLeaf v
            ++ ',' :: (dumpMembersFlat (kv2 :: ms3) ++ '}' :: rest)), by
          simp [dumpMembersFlat, dumpStr]⟩
  rw [hx]
  have hsw2 : skipWs ('"' :: x) = '"' :: x := skipWs_no _ _ (by decide)
  rw [hsw2]
  simp only []
  rw [if_neg (by decide)]
  rw [← hx, jparseMembers_flat ((k, v) :: ms2) f rest (by simp) hflat hf]
  rfl

/-- Parsing the dump of a nonempty flat object recovers it exactly. -/
theorem jparse_dumpFlatObj (ms : List (List Char × JVal)) (hne : ms ≠ [])
    (hflat : ∀ kv ∈ ms, flatLeaf kv.2) :
    jparse (dumpFlatObj ms) = some (.jobj ms) := by
  obtain ⟨y, hy⟩ : ∃ y, dumpFlatObj ms = '{' :: y := ⟨_, rfl⟩
  unfold jparse
  rw [hy]
  simp only []
  rw [if_neg (by decide)]
  rw [← hy]
  have hlen : 2 * ms.length ≤ 2 * (dumpFlatObj ms).length + 1 := by
    have h1 := dumpMembersFlat_length_ge ms
    have h2 : (dumpFlatObj ms).length = (dumpMembersFlat ms).length + 2 := by
      simp [dumpFlatObj]
    omega
  have := jparseVal_flatObj ms (2 * (dumpFlatObj ms).length + 1) [] hne hflat hlen
  rw [List.append_nil] at this
  rw [show 2 * (dumpFlatObj ms).length + 2 = (2 * (dumpFlatObj ms).length + 1) + 1 from rfl,
    this]
  rfl

theorem stringMk_data (s : String) : String.mk s.data = s := rfl

theorem ratFloor_intCast (i : Int) : ((i : Int) : Rat).floor = i := by
  show (if ((i : Int) : Rat).den = 1 then ((i : Int) : Rat).num else _) = i
  rw [Rat.den_intCast, if_pos rfl, Rat.num_intCast]

theorem ratTrunc_intCast (i : Int) : ratTrunc ((i : Int) : Rat) = i := by
  unfold ratTrunc
  by_cases h : ((i : Int) : Rat) < 0
  · rw [if_pos h]
    rw [show -((i : Int) : Rat) = ((-i : Int) : Rat) by push_cast; ring]
    rw [ratFloor_intCast]
    omega
  · rw [if_neg h, ratFloor_intCast]

theorem msgMembers_flat (now : String) (m : Message) :
    ∀ kv ∈ msgMembers now m, flatLeaf kv.2 := by
  intro kv hkv
  simp only [msgMembers, List.mem_cons, List.not_mem_nil, or_false] at hkv
  rcases hkv with rfl | rfl | rfl | rfl | rfl | rfl
  · trivial
  · trivial
  · trivial
  · trivial
  · trivial
  · show flatLeaf (.jnum ((m.type : Int) : Rat))
    show ((m.type : Int) : Rat).den = 1
    exact Rat.den_intCast m.type

/-- Deserializing the payload of serialize(m) gives m back, except that an
empty timestamp has been replaced by the current-time string. -/
theorem deserialize_payloadBytes (now : String) (m : Message) :
    deserialize (payloadBytes now m)
      = { type := m.type, sender := m.sender, receiver := m.receiver, content := m.content,
          timestamp := if m.timestamp = "" then now else m.timestamp, extra := m.extra } := by
  obtain ⟨t, snd, rcv, cnt, ts, ex⟩ := m
  unfold deserialize payloadBytes
  rw [utf8Decode_encode]
  simp only []
  rw [show payloadChars now ⟨t, snd, rcv, cnt, ts, ex⟩
    = dumpFlatObj (msgMembers now ⟨t, snd, rcv, cnt, ts, ex⟩) from rfl]
  rw [jparse_dumpFlatObj _ (by simp [msgMembers]) (msgMembers_flat now _)]
  simp only []
  rw [show jGetInt (JVal.jobj (msgMembers now ⟨t, snd, rcv, cnt, ts, ex⟩)) ("type".data)
    = some (ratTrunc ((t : Int) : Rat)) from rfl]
  rw [ratTrunc_intCast]
  simp only []
  rw [show jValueStr (JVal.jobj (msgMembers now ⟨t, snd, rcv, cnt, ts, ex⟩)) ("sender".data)
    = some snd.data from rfl]
  simp only []
  rw [show jValueStr (JVal.jobj (msgMembers now ⟨t, snd, rcv, cnt, ts, ex⟩)) ("receiver".data)
    = some rcv.data from rfl]
  simp only []
  rw [show jValueStr (JVal.jobj (msgMembers now ⟨t, snd, rcv, cnt, ts, ex⟩)) ("content".data)
    = some cnt.data from rfl]
  simp only []
  rw [show jValueStr (JVal.jobj (msgMembers now ⟨t, snd, rcv, cnt, ts, ex⟩)) ("timestamp".data)
    = some (if ts = "" then now else ts).data from rfl]
  simp only []
  rw [show jValueStr (JVal.jobj (msgMembers now ⟨t, snd, rcv, cnt, ts, ex⟩)) ("extra".data)
    = some ex.data from rfl]

theorem serialize_small (now : String) (m : Message)
    (h : (payloadBytes now m).length < 2 ^ 32) :
    serialize now m = be32 (payloadBytes now m).length ++ payloadBytes now m := by
  unfold serialize
  simp only []
  rw [Nat.mod_eq_of_lt h, List.take_length]

theorem readLen4_be32 (n : Nat) (h : n < 2 ^ 32) (rest : List Nat) :
    readLen4 (be32 n ++ rest) = n := by
  show n / 2 ^ 24 % 256 * 2 ^ 24 + n / 2 ^ 16 % 256 * 2 ^ 16 + n / 2 ^ 8 % 256 * 2 ^ 8 + n % 256
    = n
  omega

theorem hasComplete_frame (now : String) (m : Message) (rest : List Nat) (h : wireOk now m) :
    hasCompleteMessage (serialize now m ++ rest) = true := by
  have hlt : (payloadBytes now m).length < 2 ^ 32 := by
    have : MAX_MESSAGE_SIZE < 2 ^ 32 := by decide
    unfold wireOk at h
    omega
  rw [serialize_small now m hlt, List.append_assoc]
  unfold hasCompleteMessage
  rw [readLen4_be32 _ hlt]
  rw [if_neg (by simp only [be32, List.length_append, List.length_cons, List.length_nil]; omega)]
  rw [if_neg (by unfold wireOk at h; omega)]
  simp only [decide_eq_true_eq, be32, List.length_append, List.length_cons, List.length_nil]
  omega

theorem extract_frame (now : String) (m : Message) (rest : List Nat) (h : wireOk now m) :
    extractMessage (serialize now m ++ rest) = (deserialize (payloadBytes now m), rest) := by
  have hlt : (payloadBytes now m).length < 2 ^ 32 := by
    have : MAX_MESSAGE_SIZE < 2 ^ 32 := by decide
    unfold wireOk at h
    omega
  rw [serialize_small now m hlt, List.append_assoc]
  unfold extractMessage
  rw [readLen4_be32 _ hlt]
  rw [if_neg (by simp only [be32, List.length_append, List.length_cons, List.length_nil]; omega)]
  rw [if_neg (by unfold wireOk at h; omega)]
  rw [if_neg (by simp only [be32, List.length_append, List.length_cons, List.length_nil]; omega)]
  have hdrop4 : (be32 (payloadBytes now m).length ++ (payloadBytes now m ++ rest)).drop 4
      = payloadBytes now m ++ rest := by
    rw [show (4 : Nat) = (be32 (payloadBytes now m).length).length by simp [be32]]
    exact List.drop_left _ _
  have hdropAll : (be32 (payloadBytes now m).length ++ (payloadBytes now m ++ rest)).drop
      (4 + (payloadBytes now m).length) = rest := by
    rw [← List.append_assoc]
    rw [show 4 + (payloadBytes now m).length
      = (be32 (payloadBytes now m).length ++ payloadBytes now m).length by
        simp only [be32, List.length_append, List.length_cons, List.length_nil]]
    exact List.drop_left _ _
  rw [hdrop4, hdropAll]
  rw [List.take_left]

theorem streamOf_cons (now : String) (m : Message) (msgs : List Message) :
    streamOf now (m :: msgs) = serialize now m ++ streamOf now msgs := by
  simp [streamOf]

theorem serialize_length (now : String) (m : Message)
    (h : (payloadBytes now m).length < 2 ^ 32) :
    (serialize now m).length = 4 + (payloadBytes now m).length := by
  rw [serialize_small now m h]
  simp only [be32, List.length_append, List.length_cons, List.length_nil]

theorem hasComplete_nil : hasCompleteMessage [] = false := rfl

/-- Feeding frames followed by an incomplete tail: the drain loop decodes
exactly the frames, in order, and leaves the tail. -/
theorem drainAux_stream : ∀ (msgs : List Message) (now : String) (g : Nat) (p : List Nat),
    (∀ m ∈ msgs, wireOk now m) → hasCompleteMessage p = false →
    drainAux (msgs.length + g) (streamOf now msgs ++ p)
      = (msgs.map (fun m => deserialize (payloadBytes now m)), p) := by
  intro msgs
  induction msgs with
  | nil =>
      intro now g p _ hp
      have h0 : ([] : List Message).length + g = g := by simp
      have h1 : streamOf now ([] : List Message) ++ p = p := by simp [streamOf]
      rw [h0, h1]
      show drainAux g p = ([], p)
      cases g with
      | zero => rfl
      | succ g2 =>
          show (if hasCompleteMessage p then _ else ([], p)) = ([], p)
          rw [hp]
          rfl
  | cons m ms ih =>
      intro now g p hok hp
      have hwm : wireOk now m := hok m (by simp)
      rw [streamOf_cons, List.append_assoc]
      have hf : (m :: ms).length + g = ms.length + g + 1 := by
        simp only [List.length_cons]
        omega
      rw [hf]
      rw [show drainAux (ms.length + g + 1) (serialize now m ++ (streamOf now ms ++ p))
        = if hasCompleteMessage (serialize now m ++ (streamOf now ms ++ p)) then
            let p2 := extractMessage (serialize now m ++ (streamOf now ms ++ p))
            let q := drainAux (ms.length + g) p2.2
            (p2.1 :: q.1, q.2)
          else ([], serialize now m ++ (streamOf now ms ++ p)) from rfl]
      rw [hasComplete_frame now m _ hwm]
      rw [if_pos rfl]
      simp only [extract_frame now m _ hwm]
      rw [ih now g p (fun x hx => hok x (by simp [hx])) hp]
      rfl

theorem hasComplete_short_prefix (now : String) (m : Message) (h : wireOk now m)
    (q q2 : List Nat) (hq : q ++ q2 = serialize now m) (hne : q2 ≠ []) :
    hasCompleteMessage q = false := by
  have hlt : (payloadBytes now m).length < 2 ^ 32 := by
    have : MAX_MESSAGE_SIZE < 2 ^ 32 := by decide
    unfold wireOk at h
    omega
  rw [serialize_small now m hlt] at hq
  by_cases h4 : q.length < 4
  · unfold hasCompleteMessage
    rw [if_pos h4]
  · obtain ⟨a, q1, rfl⟩ : ∃ a q1, q = a :: q1 := by
      cases q with
      | nil => simp at h4
      | cons a q1 => exact ⟨a, q1, rfl⟩
    obtain ⟨b, q2b, rfl⟩ : ∃ b q2b, q1 = b :: q2b := by
      cases q1 with
      | nil => simp at h4
      | cons b q2b => exact ⟨b, q2b, rfl⟩
    obtain ⟨c, q3, rfl⟩ : ∃ c q3, q2b = c :: q3 := by
      cases q2b with
      | nil => simp at h4
      | cons c q3 => exact ⟨c, q3, rfl⟩
    obtain ⟨d, t, rfl⟩ : ∃ d t, q3 = d :: t := by
      cases q3 with
      | nil => simp at h4
      | cons d t => exact ⟨d, t, rfl⟩
    simp only [be32, List.cons_append, List.cons.injEq, List.nil_append] at hq
    obtain ⟨ha, hb, hc, hd, ht⟩ := hq
    have hlen : t.length + q2.length = (payloadBytes now m).length := by
      have := congrArg List.length ht
      simp only [List.length_append] at this
      omega
    have hq2 : 0 < q2.length := by
      cases q2 with
      | nil => exact absurd rfl hne
      | cons x xs => simp
    have hrl : readLen4 (a :: b :: c :: d :: t) = (payloadBytes now m).length := by
      show a * 2 ^ 24 + b * 2 ^ 16 + c * 2 ^ 8 + d = _
      subst ha hb hc hd
      omega
    unfold hasCompleteMessage
    rw [if_neg h4, hrl]
    rw [if_neg (by unfold wireOk at h; omega)]
    simp only [decide_eq_false_iff_not, List.length_cons]
    omega

theorem streamOf_length_ge (now : String) (msgs : List Message) :
    msgs.length ≤ (streamOf now msgs).length := by
  induction msgs with
  | nil => simp [streamOf]
  | cons m ms ih =>
      rw [streamOf_cons]
      have h4 : 4 ≤ (serialize now m).length := by
        unfold serialize
        simp only [be32, List.length_append, List.length_cons, List.length_nil]
        omega
      simp only [List.length_append, List.length_cons]
      omega

theorem drainAll_stream (now : String) (msgs : List Message) (r : List Nat)
    (hok : ∀ m ∈ msgs, wireOk now m) (hr : hasCompleteMessage r = false) :
    drainAll (streamOf now msgs ++ r)
      = (msgs.map (fun m => deserialize (payloadBytes now m)), r) := by
  unfold drainAll
  have hge : msgs.length ≤ (streamOf now msgs ++ r).length := by
    have := streamOf_length_ge now msgs
    simp only [List.length_append]
    omega
  have hsplit : (streamOf now msgs ++ r).length
      = msgs.length + ((streamOf now msgs ++ r).length - msgs.length) := by omega
  rw [hsplit, drainAux_stream msgs now _ r hok hr]

theorem stream_split : ∀ (msgs : List Message) (now : String) (q rem : List Nat),
    (∀ m ∈ msgs, wireOk now m) →
    q ++ rem = streamOf now msgs →
    ∃ (ms1 ms2 : List Message) (r : List Nat),
      msgs = ms1 ++ ms2 ∧ q = streamOf now ms1 ++ r ∧ hasCompleteMessage r = false ∧
      r ++ rem = streamOf now ms2 := by
  intro msgs
  induction msgs with
  | nil =>
      intro now q rem _ h
      have h2 : q = [] ∧ rem = [] := by
        have h3 : q ++ rem = [] := by rw [h]; simp [streamOf]
        exact List.append_eq_nil.mp h3
      refine ⟨[], [], [], by simp, ?_, hasComplete_nil, ?_⟩
      · rw [h2.1]
        simp [streamOf]
      · rw [h2.2]
        simp [streamOf]
  | cons m ms ih =>
      intro now q rem hok h
      rw [streamOf_cons] at h
      by_cases hcase : q.length < (serialize now m).length
      · have hpfx : q = (serialize now m).take q.length := by
          have h1 : (q ++ rem).take q.length = q := List.take_left q rem
          have h2 : (serialize now m ++ streamOf now ms).take q.length = q := by
            rw [← h]
            exact h1
          have h3 : (serialize now m ++ streamOf now ms).take q.length
              = (serialize now m).take q.length := List.take_append_of_le_length (by omega)
          exact (h2.symm.trans h3)
        refine ⟨[], m :: ms, q, by simp, by simp [streamOf], ?_, ?_⟩
        · refine hasComplete_short_prefix now m (hok m (by simp)) q
            ((serialize now m).drop q.length) ?_ ?_
          · calc q ++ (serialize now m).drop q.length
                = (serialize now m).take q.length ++ (serialize now m).drop q.length :=
                  congrArg (fun z => z ++ (serialize now m).drop q.length) hpfx
              _ = serialize now m := List.take_append_drop _ _
          · intro hnil
            have h5 := congrArg List.length hnil
            simp only [List.length_drop, List.length_nil] at h5
            omega
        · rw [streamOf_cons]
          exact h
      · have hfr : serialize now m = q.take (serialize now m).length := by
          have h1 : (q ++ rem).take (serialize now m).length
              = q.take (serialize now m).length := List.take_append_of_le_length (by omega)
          rw [h, List.take_left] at h1
          exact h1
        have hdec : q = serialize now m ++ q.drop (serialize now m).length := by
          have h1 : q.take (serialize now m).length ++ q.drop (serialize now m).length = q :=
            List.take_append_drop _ _
          rw [← hfr] at h1
          exact h1.symm
        have hrem2 : q.drop (serialize now m).length ++ rem = streamOf now ms := by
          rw [hdec, List.append_assoc] at h
          exact List.append_cancel_left h
        obtain ⟨ms1, ms2, r, hms, hq2, hr, hrem⟩ :=
          ih now (q.drop (serialize now m).length) rem (fun x hx => hok x (by simp [hx])) hrem2
        refine ⟨m :: ms1, ms2, r, by simp [hms], ?_, hr, hrem⟩
        rw [streamOf_cons, List.append_assoc, ← hq2]
        exact hdec

theorem feedAux_stream : ∀ (chunks : List (List Nat)) (msgs : List Message) (now : String)
    (p : List Nat),
    (∀ m ∈ msgs, wireOk now m) → hasCompleteMessage p = false →
    p ++ chunks.flatten = streamOf now msgs →
    feedAux p chunks = (msgs.map (fun m => deserialize (payloadBytes now m)), []) := by
  intro chunks
  induction chunks with
  | nil =>
      intro msgs now p hok hp h
      rw [List.flatten_nil, List.append_nil] at h
      cases msgs with
      | nil =>
          have hpn : p = [] := by
            simpa [streamOf] using h
          rw [hpn]
          rfl
      | cons m ms =>
          exfalso
          rw [streamOf_cons] at h
          have hcf := hasComplete_frame now m (streamOf now ms) (hok m (by simp))
          rw [← h] at hcf
          rw [hp] at hcf
          exact Bool.false_ne_true hcf
  | cons c cs ih =>
      intro msgs now p hok hp h
      have hflat : (p ++ c) ++ cs.flatten = streamOf now msgs := by
        rw [List.append_assoc]
        rw [← List.flatten_cons]
        exact h
      obtain ⟨ms1, ms2, r, hms, hq, hr, hrem⟩ := stream_split msgs now (p ++ c) cs.flatten hok
        hflat
      show (let pr := drainAll (p ++ c); let q := feedAux pr.2 cs; (pr.1 ++ q.1, q.2)) = _
      have hok1 : ∀ m ∈ ms1, wireOk now m := fun x hx => hok x (by rw [hms]; simp [hx])
      have hok2 : ∀ m ∈ ms2, wireOk now m := fun x hx => hok x (by rw [hms]; simp [hx])
      have hdrain : drainAll (p ++ c)
          = (ms1.map (fun m => deserialize (payloadBytes now m)), r) := by
        rw [hq]
        exact drainAll_stream now ms1 r hok1 hr
      rw [hdrain]
      simp only []
      rw [ih ms2 now r hok2 hr hrem]
      simp only []
      rw [← List.map_append, ← hms]

/-- Feeding the entire stream of a message sequence, split at arbitrary
chunk boundaries, recovers every message in order with nothing left over. -/
theorem feedAll_stream (chunks : List (List Nat)) (msgs : List Message) (now : String)
    (hok : ∀ m ∈ msgs, wireOk now m) (h : chunks.flatten = streamOf now msgs) :
    feedAll chunks = (msgs.map (fun m => deserialize (payloadBytes now m)), []) := by
  unfold feedAll
  exact feedAux_stream chunks msgs now [] hok hasComplete_nil (by simpa using h)

theorem deserialize_payloadBytes_ne (now : String) (m : Message) (h : m.timestamp ≠ "") :
    deserialize (payloadBytes now m) = m := by
  obtain ⟨t, snd, rcv, cnt, ts, ex⟩ := m
  rw [deserialize_payloadBytes]
  have h2 : ts ≠ "" := h
  rw [if_neg h2]

theorem drop4_serialize (now : String) (m : Message) (h : wellFormedMsg now m) :
    (serialize now m).drop 4 = payloadBytes now m := by
  rw [serialize_small now m h]
  rw [show (4 : Nat) = (be32 (payloadBytes now m).length).length by simp [be32]]
  exact List.drop_left _ _

/-- C1: rejected as stated — the spec says an oversized length prefix
(N > 1 MiB) clears the buffer and surfaces an error frame, but
hasCompleteMessage returns false for such a prefix, so processData's
"while hasCompleteMessage" loop never reaches extractMessage's clearing
branch: no matter how many further bytes arrive, nothing is extracted, no
error frame is produced and the buffer is never cleared.  The boundary
part of the claim does hold: a frame with N = 1 MiB exactly is accepted. -/
theorem claim_C1 :
    readLen4 [0, 16, 0, 1] = 1024 * 1024 + 1
    ∧ (∀ extra : List Nat,
        drainAll ([0, 16, 0, 1] ++ extra) = ([], [0, 16, 0, 1] ++ extra))
    ∧ (∀ p : List Nat,
        hasCompleteMessage (be32 (1024 * 1024) ++ p) = decide (1024 * 1024 ≤ p.length)) := by
  refine ⟨by decide, ?_, ?_⟩
  · intro extra
    have hrl : readLen4 ([0, 16, 0, 1] ++ extra) = 1048577 := by
      show 0 * 2 ^ 24 + 16 * 2 ^ 16 + 0 * 2 ^ 8 + 1 = 1048577
      norm_num
    have hhc : hasCompleteMessage ([0, 16, 0, 1] ++ extra) = false := by
      unfold hasCompleteMessage
      rw [hrl]
      rw [if_neg (by simp only [List.length_append, List.length_cons, List.length_nil]; omega)]
      rw [if_pos (by norm_num [MAX_MESSAGE_SIZE])]
    unfold drainAll
    obtain ⟨k, hk⟩ : ∃ k, ([0, 16, 0, 1] ++ extra).length = k + 1 :=
      ⟨([0, 16, 0, 1] ++ extra).length - 1, by simp⟩
    rw [hk]
    show (if hasCompleteMessage ([0, 16, 0, 1] ++ extra) then _ else _) = _
    rw [hhc]
    rfl
  · intro p
    unfold hasCompleteMessage
    rw [readLen4_be32 (1024 * 1024) (by norm_num) p]
    rw [if_neg (by simp only [List.length_append, be32, List.length_cons, List.length_nil]; omega)]
    rw [if_neg (by norm_num [MAX_MESSAGE_SIZE])]
    rw [decide_eq_decide]
    simp only [List.length_append, be32, List.length_cons, List.length_nil]
    omega

/-- C4 counterexample: for a message with an empty timestamp the round trip
is not the identity — serialize substitutes the current-time string, so
decode(encode(m)) differs from m on the timestamp field. -/
theorem claim_C4_counterexample :
    deserialize ((serialize "12:00:00" { type := 100 }).drop 4) ≠ ({ type := 100 } : Message) := by
  rw [drop4_serialize "12:00:00" { type := 100 } (by unfold wellFormedMsg; decide)]
  intro h
  have h2 : (deserialize (payloadBytes "12:00:00" ({ type := 100 } : Message))).timestamp
      = "12:00:00" := by decide
  rw [h] at h2
  exact absurd h2 (by decide)

/-- C4 (amended): for every message whose payload fits the 32-bit length
prefix, all six fields round-trip through serialize/deserialize unchanged
provided the timestamp is nonempty; in general the round trip returns the
message with an empty timestamp replaced by the current-time string
(Protocol.cpp line 24), so the claim's "including when m.timestamp is the
empty string" fails. -/
theorem claim_C4 (now : String) (m : Message) (hwf : wellFormedMsg now m) :
    (m.timestamp ≠ "" → deserialize ((serialize now m).drop 4) = m)
    ∧ deserialize ((serialize now m).drop 4)
        = { type := m.type, sender := m.sender, receiver := m.receiver, content := m.content,
            timestamp := if m.timestamp = "" then now else m.timestamp, extra := m.extra } := by
  constructor
  · intro h
    rw [drop4_serialize now m hwf, deserialize_payloadBytes_ne now m h]
  · rw [drop4_serialize now m hwf, deserialize_payloadBytes]

theorem claim_C4_witness :
    deserialize ((serialize "12:00:00" { type := 2, sender := "a", timestamp := "09:30:00" }).drop 4)
      = { type := 2, sender := "a", timestamp := "09:30:00" } :=
  (claim_C4 "12:00:00" { type := 2, sender := "a", timestamp := "09:30:00" }
    (by unfold wellFormedMsg; decide)).1 (by decide)

/-- C5 counterexample: feeding the single complete frame of a message with
an empty timestamp does not yield the original message — the decoded copy
carries the substituted current-time timestamp. -/
theorem claim_C5_counterexample :
    feedAll [serialize "12:00:00" { type := 10, content := "hi" }]
      ≠ ([{ type := 10, content := "hi" }], []) := by
  intro h
  have h2 : (feedAll [serialize "12:00:00" { type := 10, content := "hi" }]).1.map
      Message.timestamp = ["12:00:00"] := by decide
  rw [h] at h2
  exact absurd h2 (by decide)

/-- C5 (amended): for every finite sequence of messages whose timestamps
are nonempty and whose payloads fit the 1 MiB frame cap, concatenating the
serialized frames, splitting the bytes at arbitrary boundaries and feeding
the fragments to the session's framing buffer yields exactly the original
messages in their original order with an empty final buffer; as stated the
claim fails for empty timestamps, which serialize rewrites to the current
time. -/
theorem claim_C5 (now : String) (msgs : List Message) (chunks : List (List Nat))
    (hok : ∀ m ∈ msgs, m.timestamp ≠ "" ∧ (payloadBytes now m).length ≤ MAX_MESSAGE_SIZE)
    (h : chunks.flatten = streamOf now msgs) :
    feedAll chunks = (msgs, []) := by
  have h1 := feedAll_stream chunks msgs now (fun m hm => (hok m hm).2) h
  rw [h1]
  have h2 : msgs.map (fun m => deserialize (payloadBytes now m)) = msgs := by
    have h3 : msgs.map (fun m => deserialize (payloadBytes now m)) = msgs.map id :=
      List.map_congr_left (fun m hm => deserialize_payloadBytes_ne now m (hok m hm).1)
    rw [h3, List.map_id]
  rw [h2]

theorem claim_C5_witness :
    feedAll [(serialize "12:00:00" { type := 10, sender := "a", timestamp := "09:30:00" }).take 3,
        (serialize "12:00:00" { type := 10, sender := "a", timestamp := "09:30:00" }).drop 3]
      = ([{ type := 10, sender := "a", timestamp := "09:30:00" }], []) := by
  refine claim_C5 "12:00:00" [{ type := 10, sender := "a", timestamp := "09:30:00" }]
    [(serialize "12:00:00" { type := 10, sender := "a", timestamp := "09:30:00" }).take 3,
      (serialize "12:00:00" { type := 10, sender := "a", timestamp := "09:30:00" }).drop 3]
    ?_ ?_
  · intro m hm
    rw [List.mem_singleton] at hm
    subst hm
    exact ⟨by decide, by decide⟩
  · decide

theorem handleMessage_eq_global (nowMs : Nat) (now : String) (s : SessState) (w : World)
    (msg : Message) (h : msg.type = MsgType.MSG_GLOBAL) :
    handleMessage nowMs now s w msg = handleGlobalMessage nowMs now s w msg := by
  unfold handleMessage
  rw [h]
  rw [if_neg (by decide), if_neg (by decide), if_neg (by decide), if_neg (by decide), if_pos rfl]

theorem handleMessage_eq_private (nowMs : Nat) (now : String) (s : SessState) (w : World)
    (msg : Message) (h : msg.type = MsgType.MSG_PRIVATE) :
    handleMessage nowMs now s w msg = handlePrivateMessage nowMs now s w msg := by
  unfold handleMessage
  rw [h]
  rw [if_neg (by decide), if_neg (by decide), if_neg (by decide), if_neg (by decide),
    if_neg (by decide), if_pos rfl]

theorem handleMessage_eq_register (nowMs : Nat) (now : String) (s : SessState) (w : World)
    (msg : Message) (h : msg.type = MsgType.REGISTER) :
    handleMessage nowMs now s w msg = handleRegister now s w msg := by
  unfold handleMessage
  rw [h]
  rw [if_pos rfl]

theorem handleMessage_eq_login (nowMs : Nat) (now : String) (s : SessState) (w : World)
    (msg : Message) (h : msg.type = MsgType.LOGIN) :
    handleMessage nowMs now s w msg = handleLogin now s w msg := by
  unfold handleMessage
  rw [h]
  rw [if_neg (by decide), if_pos rfl]

theorem handleMessage_eq_logout (nowMs : Nat) (now : String) (s : SessState) (w : World)
    (msg : Message) (h : msg.type = MsgType.LOGOUT) :
    handleMessage nowMs now s w msg = handleLogout now s w := by
  unfold handleMessage
  rw [h]
  rw [if_neg (by decide), if_neg (by decide), if_pos rfl]

theorem handleMessage_eq_change_password (nowMs : Nat) (now : String) (s : SessState) (w : World)
    (msg : Message) (h : msg.type = MsgType.CHANGE_PASSWORD) :
    handleMessage nowMs now s w msg = handleChangePassword now s w msg := by
  unfold handleMessage
  rw [h]
  rw [if_neg (by decide), if_neg (by decide), if_neg (by decide), if_pos rfl]

theorem handleMessage_eq_ping (nowMs : Nat) (now : String) (s : SessState) (w : World)
    (msg : Message) (h : msg.type = MsgType.PING) :
    handleMessage nowMs now s w msg = (s, w, [.reply { type := MsgType.PONG }]) := by
  unfold handleMessage
  rw [h]
  rw [if_neg (by decide), if_neg (by decide), if_neg (by decide), if_neg (by decide), if_neg (by decide), if_neg (by decide), if_pos rfl]

theorem handleMessage_eq_kick_user (nowMs : Nat) (now : String) (s : SessState) (w : World)
    (msg : Message) (h : msg.type = MsgType.KICK_USER) :
    handleMessage nowMs now s w msg = handleKickUser now s w msg := by
  unfold handleMessage
  rw [h]
  rw [if_neg (by decide), if_neg (by decide), if_neg (by decide), if_neg (by decide), if_neg (by decide), if_neg (by decide), if_neg (by decide), if_pos rfl]

theorem handleMessage_eq_ban_user (nowMs : Nat) (now : String) (s : SessState) (w : World)
    (msg : Message) (h : msg.type = MsgType.BAN_USER) :
    handleMessage nowMs now s w msg = handleBanUser now s w msg := by
  unfold handleMessage
  rw [h]
  rw [if_neg (by decide), if_neg (by decide), if_neg (by decide), if_neg (by decide), if_neg (by decide), if_neg (by decide), if_neg (by decide), if_neg (by decide), if_pos rfl]

theorem handleMessage_eq_unban_user (nowMs : Nat) (now : String) (s : SessState) (w : World)
    (msg : Message) (h : msg.type = MsgType.UNBAN_USER) :
    handleMessage nowMs now s w msg = handleUnbanUser now s w msg := by
  unfold handleMessage
  rw [h]
  rw [if_neg (by decide), if_neg (by decide), if_neg (by decide), if_neg (by decide), if_neg (by decide), if_neg (by decide), if_neg (by decide), if_neg (by decide), if_neg (by decide), if_pos rfl]

theorem handleMessage_eq_mute_user (nowMs : Nat) (now : String) (s : SessState) (w : World)
    (msg : Message) (h : msg.type = MsgType.MUTE_USER) :
    handleMessage nowMs now s w msg = handleMuteUser now s w msg := by
  unfold handleMessage
  rw [h]
  rw [if_neg (by decide), if_neg (by decide), if_neg (by decide), if_neg (by decide), if_neg (by decide), if_neg (by decide), if_neg (by decide), if_neg (by decide), if_neg (by decide), if_neg (by decide), if_pos rfl]

theorem handleMessage_eq_unmute_user (nowMs : Nat) (now : String) (s : SessState) (w : World)
    (msg : Message) (h : msg.type = MsgType.UNMUTE_USER) :
    handleMessage nowMs now s w msg = handleUnmuteUser now s w msg := by
  unfold handleMessage
  rw [h]
  rw [if_neg (by decide), if_neg (by decide), if_neg (by decide), if_neg (by decide), if_neg (by decide), if_neg (by decide), if_neg (by decide), if_neg (by decide), if_neg (by decide), if_neg (by decide), if_neg (by decide), if_pos rfl]

theorem handleMessage_eq_promote_user (nowMs : Nat) (now : String) (s : SessState) (w : World)
    (msg : Message) (h : msg.type = MsgType.PROMOTE_USER) :
    handleMessage nowMs now s w msg = handlePromoteUser now s w msg := by
  unfold handleMessage
  rw [h]
  rw [if_neg (by decide), if_neg (by decide), if_neg (by decide), if_neg (by decide), if_neg (by decide), if_neg (by decide), if_neg (by decide), if_neg (by decide), if_neg (by decide), if_neg (by decide), if_neg (by decide), if_neg (by decide), if_pos rfl]

theorem handleMessage_eq_demote_user (nowMs : Nat) (now : String) (s : SessState) (w : World)
    (msg : Message) (h : msg.type = MsgType.DEMOTE_USER) :
    handleMessage nowMs now s w msg = handleDemoteUser now s w msg := by
  unfold handleMessage
  rw [h]
  rw [if_neg (by decide), if_neg (by decide), if_neg (by decide), if_neg (by decide), if_neg (by decide), if_neg (by decide), if_neg (by decide), if_neg (by decide), if_neg (by decide), if_neg (by decide), if_neg (by decide), if_neg (by decide), if_neg (by decide), if_pos rfl]

theorem handleMessage_eq_get_all_users (nowMs : Nat) (now : String) (s : SessState) (w : World)
    (msg : Message) (h : msg.type = MsgType.GET_ALL_USERS) :
    handleMessage nowMs now s w msg = handleGetAllUsers now s w := by
  unfold handleMessage
  rw [h]
  rw [if_neg (by decide), if_neg (by decide), if_neg (by decide), if_neg (by decide), if_neg (by decide), if_neg (by decide), if_neg (by decide), if_neg (by decide), if_neg (by decide), if_neg (by decide), if_neg (by decide), if_neg (by decide), if_neg (by decide), if_neg (by decide), if_pos rfl]

theorem handleMessage_eq_get_banned_list (nowMs : Nat) (now : String) (s : SessState) (w : World)
    (msg : Message) (h : msg.type = MsgType.GET_BANNED_LIST) :
    handleMessage nowMs now s w msg = handleGetBannedList now s w := by
  unfold handleMessage
  rw [h]
  rw [if_neg (by decide), if_neg (by decide), if_neg (by decide), if_neg (by decide), if_neg (by decide), if_neg (by decide), if_neg (by decide), if_neg (by decide), if_neg (by decide), if_neg (by decide), if_neg (by decide), if_neg (by decide), if_neg (by decide), if_neg (by decide), if_neg (by decide), if_pos rfl]

theorem handleMessage_eq_get_muted_list (nowMs : Nat) (now : String) (s : SessState) (w : World)
    (msg : Message) (h : msg.type = MsgType.GET_MUTED_LIST) :
    handleMessage nowMs now s w msg = handleGetMutedList now s w := by
  unfold handleMessage
  rw [h]
  rw [if_neg (by decide), if_neg (by decide), if_neg (by decide), if_neg (by decide), if_neg (by decide), if_neg (by decide), if_neg (by decide), if_neg (by decide), if_neg (by decide), if_neg (by decide), if_neg (by decide), if_neg (by decide), if_neg (by decide), if_neg (by decide), if_neg (by decide), if_neg (by decide), if_pos rfl]

theorem handleMessage_eq_user_info (nowMs : Nat) (now : String) (s : SessState) (w : World)
    (msg : Message) (h : msg.type = MsgType.USER_INFO) :
    handleMessage nowMs now s w msg = handleUserInfo now s w msg := by
  unfold handleMessage
  rw [h]
  rw [if_neg (by decide), if_neg (by decide), if_neg (by decide), if_neg (by decide), if_neg (by decide), if_neg (by decide), if_neg (by decide), if_neg (by decide), if_neg (by decide), if_neg (by decide), if_neg (by decide), if_neg (by decide), if_neg (by decide), if_neg (by decide), if_neg (by decide), if_neg (by decide), if_neg (by decide), if_pos rfl]

theorem handleMessage_eq_default (nowMs : Nat) (now : String) (s : SessState) (w : World)
    (msg : Message) (e1 : msg.type ≠ MsgType.REGISTER) (e2 : msg.type ≠ MsgType.LOGIN) (e3 : msg.type ≠ MsgType.LOGOUT) (e4 : msg.type ≠ MsgType.CHANGE_PASSWORD) (e5 : msg.type ≠ MsgType.MSG_GLOBAL) (e6 : msg.type ≠ MsgType.MSG_PRIVATE) (e7 : msg.type ≠ MsgType.PING) (e8 : msg.type ≠ MsgType.KICK_USER) (e9 : msg.type ≠ MsgType.BAN_USER) (e10 : msg.type ≠ MsgType.UNBAN_USER) (e11 : msg.type ≠ MsgType.MUTE_USER) (e12 : msg.type ≠ MsgType.UNMUTE_USER) (e13 : msg.type ≠ MsgType.PROMOTE_USER) (e14 : msg.type ≠ MsgType.DEMOTE_USER) (e15 : msg.type ≠ MsgType.GET_ALL_USERS) (e16 : msg.type ≠ MsgType.GET_BANNED_LIST) (e17 : msg.type ≠ MsgType.GET_MUTED_LIST) (e18 : msg.type ≠ MsgType.USER_INFO) :
    handleMessage nowMs now s w msg
      = (s, w, [.reply (createErrorResponse now "Unknown command")]) := by
  unfold handleMessage
  rw [if_neg e1, if_neg e2, if_neg e3, if_neg e4, if_neg e5, if_neg e6, if_neg e7, if_neg e8, if_neg e9, if_neg e10, if_neg e11, if_neg e12, if_neg e13, if_neg e14, if_neg e15, if_neg e16, if_neg e17, if_neg e18]

/-- C2: rejected as stated — when the receiver of a private message is
offline the sender does get a single ERROR reply whose content contains
"not online", but handlePrivateMessage calls logMessage before the
isUserOnline check, so a "private" log row for the failed send is appended
anyway, contradicting the claim that the message log is left unchanged. -/
theorem claim_C2 (nowMs : Nat) (now : String) (s : SessState) (w : World) (msg : Message)
    (hauth : s.authenticated = true)
    (hmute : isMuted w.db s.username = false)
    (hrl : (checkRateLimit nowMs s).1 = true)
    (hty : msg.type = MsgType.MSG_PRIVATE)
    (hrecv : msg.receiver ≠ "") (hcont : msg.content ≠ "")
    (hself : msg.receiver ≠ s.username)
    (hoff : isUserOnline w msg.receiver = false) :
    handleMessage nowMs now s w msg
      = ((checkRateLimit nowMs s).2,
         { w with msgLog := w.msgLog ++ [{ sender := s.username, receiver := msg.receiver, content := msg.content, mtype := "private" }] },
         [.reply (createErrorResponse now ("User not online: " ++ msg.receiver))])
    ∧ (∃ pre post : String,
        "User not online: " ++ msg.receiver = pre ++ "not online" ++ post) := by
  refine ⟨?_, "User ", ": " ++ msg.receiver, ?_⟩
  · rw [handleMessage_eq_private nowMs now s w msg hty]
    unfold handlePrivateMessage
    rw [if_neg (by simp [hauth])]
    rw [if_neg (by simp [hmute])]
    rcases hcr : checkRateLimit nowMs s with ⟨ok, s2⟩
    rw [hcr] at hrl
    simp only at hrl
    subst hrl
    show (if msg.receiver = "" then _ else _) = _
    rw [if_neg hrecv, if_neg hcont, if_neg hself]
    rw [if_neg (by simp [hoff])]
  · rw [String.append_assoc]
    rfl

theorem claim_C2_witness :
    handleMessage 5000 "12:00:00" { authenticated := true, username := "alice", displayName := "alice", rlStart := 5000, rlCount := 0 } { db := [], online := ["alice"], msgLog := [] } { type := 11, receiver := "bob", content := "hi" }
      = ({ authenticated := true, username := "alice", displayName := "alice", rlStart := 5000, rlCount := 1 },
         { db := [], online := ["alice"], msgLog := [{ sender := "alice", receiver := "bob", content := "hi", mtype := "private" }] },
         [.reply (createErrorResponse "12:00:00" "User not online: bob")]) := by
  have h := (claim_C2 5000 "12:00:00"
    { authenticated := true, username := "alice", displayName := "alice", rlStart := 5000, rlCount := 0 }
    { db := [], online := ["alice"], msgLog := [] }
    { type := 11, receiver := "bob", content := "hi" }
    rfl rfl (by decide) rfl (by decide) (by decide) (by decide) rfl).1
  rw [h]
  rfl

/-- C7: confirmed — a MSG_GLOBAL or MSG_PRIVATE frame from an
authenticated but muted sender produces exactly one ERROR reply, leaves
the world (including the message log) unchanged and delivers nothing. -/
theorem claim_C7 (nowMs : Nat) (now : String) (s : SessState) (w : World) (msg : Message)
    (hauth : s.authenticated = true)
    (hmute : isMuted w.db s.username = true)
    (hty : msg.type = MsgType.MSG_GLOBAL ∨ msg.type = MsgType.MSG_PRIVATE) :
    handleMessage nowMs now s w msg
      = (s, w, [.reply (createErrorResponse now "You are muted and cannot send messages")]) := by
  rcases hty with h | h
  · rw [handleMessage_eq_global nowMs now s w msg h]
    unfold handleGlobalMessage
    rw [if_neg (by simp [hauth]), if_pos hmute]
  · rw [handleMessage_eq_private nowMs now s w msg h]
    unfold handlePrivateMessage
    rw [if_neg (by simp [hauth]), if_pos hmute]

theorem claim_C7_witness :
    handleMessage 0 "12:00:00" { authenticated := true, username := "bob", displayName := "bob", rlStart := 0, rlCount := 0 } { db := [("bob", { pwHash := "", displayName := "bob", role := 0, banned := false, muted := true, createdAt := "" })], online := ["bob"], msgLog := [] } { type := 10, content := "hi" }
      = ({ authenticated := true, username := "bob", displayName := "bob", rlStart := 0, rlCount := 0 },
         { db := [("bob", { pwHash := "", displayName := "bob", role := 0, banned := false, muted := true, createdAt := "" })], online := ["bob"], msgLog := [] },
         [.reply (createErrorResponse "12:00:00" "You are muted and cannot send messages")]) :=
  claim_C7 0 "12:00:00"
    { authenticated := true, username := "bob", displayName := "bob", rlStart := 0, rlCount := 0 }
    { db := [("bob", { pwHash := "", displayName := "bob", role := 0, banned := false, muted := true, createdAt := "" })], online := ["bob"], msgLog := [] }
    { type := 10, content := "hi" }
    rfl (by decide) (Or.inl rfl)

/-- C10: confirmed — an empty-content chat frame from an authenticated,
unmuted, within-limit sender (with a valid non-self receiver in the
private case) produces no reply, no log row and no delivery, yet the
session keeps the rate-limiter state updated by checkRateLimit, which
charges the frame one token (increment, or reset-to-one on a new window). -/
theorem claim_C10 (nowMs : Nat) (now : String) (s : SessState) (w : World) (msg : Message)
    (hauth : s.authenticated = true)
    (hmute : isMuted w.db s.username = false)
    (hrl : (checkRateLimit nowMs s).1 = true)
    (hcont : msg.content = "") :
    (msg.type = MsgType.MSG_GLOBAL →
        handleMessage nowMs now s w msg = ((checkRateLimit nowMs s).2, w, []))
    ∧ (msg.type = MsgType.MSG_PRIVATE → msg.receiver ≠ "" → msg.receiver ≠ s.username →
        handleMessage nowMs now s w msg = ((checkRateLimit nowMs s).2, w, []))
    ∧ ((checkRateLimit nowMs s).2.rlCount = s.rlCount + 1
        ∨ (checkRateLimit nowMs s).2.rlCount = 1) := by
  refine ⟨?_, ?_, ?_⟩
  · intro hty
    rw [handleMessage_eq_global nowMs now s w msg hty]
    unfold handleGlobalMessage
    rw [if_neg (by simp [hauth])]
    rw [if_neg (by simp [hmute])]
    rcases hcr : checkRateLimit nowMs s with ⟨ok, s2⟩
    rw [hcr] at hrl
    simp only at hrl
    subst hrl
    show (if msg.content = "" then _ else _) = _
    rw [if_pos hcont]
  · intro hty hrecv hself
    rw [handleMessage_eq_private nowMs now s w msg hty]
    unfold handlePrivateMessage
    rw [if_neg (by simp [hauth])]
    rw [if_neg (by simp [hmute])]
    rcases hcr : checkRateLimit nowMs s with ⟨ok, s2⟩
    rw [hcr] at hrl
    simp only at hrl
    subst hrl
    show (if msg.receiver = "" then _ else _) = _
    rw [if_neg hrecv, if_pos hcont]
  · unfold checkRateLimit
    dsimp only
    split
    · right
      rfl
    · split
      · left
        rfl
      · left
        rfl

theorem claim_C10_witness :
    handleMessage 5000 "12:00:00" { authenticated := true, username := "alice", displayName := "alice", rlStart := 5000, rlCount := 3 } { db := [], online := ["alice"], msgLog := [] } { type := 10, content := "" }
      = ({ authenticated := true, username := "alice", displayName := "alice", rlStart := 5000, rlCount := 4 }, { db := [], online := ["alice"], msgLog := [] }, []) := by
  have h := (claim_C10 5000 "12:00:00"
    { authenticated := true, username := "alice", displayName := "alice", rlStart := 5000, rlCount := 3 }
    { db := [], online := ["alice"], msgLog := [] }
    { type := 10, content := "" }
    rfl rfl (by decide) rfl).1 rfl
  rw [h]
  rfl

theorem handleRegister_fst (now : String) (s : SessState) (w : World) (msg : Message) :
    (handleRegister now s w msg).1 = s := by
  unfold handleRegister
  try dsimp only
  repeat' split
  all_goals rfl

theorem handleChangePassword_fst (now : String) (s : SessState) (w : World) (msg : Message) :
    (handleChangePassword now s w msg).1 = s := by
  unfold handleChangePassword
  try dsimp only
  repeat' split
  all_goals rfl

theorem handleKickUser_fst (now : String) (s : SessState) (w : World) (msg : Message) :
    (handleKickUser now s w msg).1 = s := by
  unfold handleKickUser
  try dsimp only
  repeat' split
  all_goals rfl

theorem handleBanUser_fst (now : String) (s : SessState) (w : World) (msg : Message) :
    (handleBanUser now s w msg).1 = s := by
  unfold handleBanUser
  try dsimp only
  repeat' split
  all_goals rfl

theorem handleUnbanUser_fst (now : String) (s : SessState) (w : World) (msg : Message) :
    (handleUnbanUser now s w msg).1 = s := by
  unfold handleUnbanUser
  try dsimp only
  repeat' split
  all_goals rfl

theorem handleMuteUser_fst (now : String) (s : SessState) (w : World) (msg : Message) :
    (handleMuteUser now s w msg).1 = s := by
  unfold handleMuteUser
  try dsimp only
  repeat' split
  all_goals rfl

theorem handleUnmuteUser_fst (now : String) (s : SessState) (w : World) (msg : Message) :
    (handleUnmuteUser now s w msg).1 = s := by
  unfold handleUnmuteUser
  try dsimp only
  repeat' split
  all_goals rfl

theorem handlePromoteUser_fst (now : String) (s : SessState) (w : World) (msg : Message) :
    (handlePromoteUser now s w msg).1 = s := by
  unfold handlePromoteUser
  try dsimp only
  repeat' split
  all_goals rfl

theorem handleDemoteUser_fst (now : String) (s : SessState) (w : World) (msg : Message) :
    (handleDemoteUser now s w msg).1 = s := by
  unfold handleDemoteUser
  try dsimp only
  repeat' split
  all_goals rfl

theorem handleUserInfo_fst (now : String) (s : SessState) (w : World) (msg : Message) :
    (handleUserInfo now s w msg).1 = s := by
  unfold handleUserInfo
  try dsimp only
  repeat' split
  all_goals rfl

theorem handleGetAllUsers_fst (now : String) (s : SessState) (w : World) :
    (handleGetAllUsers now s w).1 = s := by
  unfold handleGetAllUsers
  try dsimp only
  repeat' split
  all_goals rfl

theorem handleGetBannedList_fst (now : String) (s : SessState) (w : World) :
    (handleGetBannedList now s w).1 = s := by
  unfold handleGetBannedList
  try dsimp only
  repeat' split
  all_goals rfl

theorem handleGetMutedList_fst (now : String) (s : SessState) (w : World) :
    (handleGetMutedList now s w).1 = s := by
  unfold handleGetMutedList
  try dsimp only
  repeat' split
  all_goals rfl

theorem handleLogin_rl (now : String) (s : SessState) (w : World) (msg : Message) :
    ((handleLogin now s w msg).1).rlStart = s.rlStart
    ∧ ((handleLogin now s w msg).1).rlCount = s.rlCount := by
  unfold handleLogin
  try dsimp only
  repeat' split
  all_goals exact ⟨rfl, rfl⟩

theorem handleLogout_rl (now : String) (s : SessState) (w : World) :
    ((handleLogout now s w).1).rlStart = s.rlStart
    ∧ ((handleLogout now s w).1).rlCount = s.rlCount := by
  unfold handleLogout
  try dsimp only
  repeat' split
  all_goals exact ⟨rfl, rfl⟩

theorem checkRateLimit_within (t : Nat) (s0 : SessState) (ht : t - s0.rlStart < 1000) :
    checkRateLimit t s0
      = (if s0.rlCount + 1 > RATE_LIMIT_MAX_MESSAGES then false else true,
         { s0 with rlCount := s0.rlCount + 1 }) := by
  unfold checkRateLimit
  rw [if_neg (by simp only [RATE_LIMIT_WINDOW_SECONDS]; omega)]
  dsimp only
  split
  · rfl
  · rfl

theorem rlRun_window (ts : List Nat) : ∀ s0 : SessState,
    (∀ t ∈ ts, t - s0.rlStart < 1000) →
    (rlRun s0 ts).2.rlStart = s0.rlStart
    ∧ (rlRun s0 ts).2.rlCount = s0.rlCount + ts.length
    ∧ ((rlRun s0 ts).1 : Int) = max 0 (min (ts.length : Int) (10 - s0.rlCount)) := by
  induction ts with
  | nil =>
    intro s0 h
    refine ⟨rfl, by simp [rlRun], ?_⟩
    simp only [rlRun, List.length_nil, Nat.cast_zero]
    omega
  | cons t ts ih =>
    intro s0 h
    have ht : t - s0.rlStart < 1000 := h t (by simp)
    have hcheck := checkRateLimit_within t s0 ht
    have hrest := ih { s0 with rlCount := s0.rlCount + 1 }
      (fun u hu => h u (List.mem_cons_of_mem t hu))
    obtain ⟨ih1, ih2, ih3⟩ := hrest
    refine ⟨?_, ?_, ?_⟩
    · show (rlRun (checkRateLimit t s0).2 ts).2.rlStart = s0.rlStart
      rw [hcheck]
      exact ih1
    · show (rlRun (checkRateLimit t s0).2 ts).2.rlCount = s0.rlCount + ((t :: ts).length : Int)
      rw [hcheck]
      have h2 := ih2
      simp only [List.length_cons] at h2 ⊢
      push_cast at h2 ⊢
      omega
    · show (((if (checkRateLimit t s0).1 then 1 else 0) + (rlRun (checkRateLimit t s0).2 ts).1 : Nat) : Int)
        = max 0 (min (((t :: ts).length : Nat) : Int) (10 - s0.rlCount))
      rw [hcheck]
      have h3 := ih3
      by_cases hc : s0.rlCount + 1 > RATE_LIMIT_MAX_MESSAGES
      · rw [if_pos hc]
        simp only [RATE_LIMIT_MAX_MESSAGES] at hc
        simp only [Bool.false_eq_true, if_false, List.length_cons] at h3 ⊢
        push_cast at h3 ⊢
        omega
      · rw [if_neg hc]
        simp only [RATE_LIMIT_MAX_MESSAGES] at hc
        simp only [if_true, List.length_cons] at h3 ⊢
        push_cast at h3 ⊢
        omega

/-- C3: confirmed — starting from a fresh window, a burst of chat frames
whose times all fall within one second of the window start has exactly
min(n, 10) frames accepted (so the 11th is rejected, and after ten
accepted frames every further frame in the window is rejected); a frame
whose time is at least one second past the window start is always
accepted, resetting the counter; and dispatching any non-chat frame type
leaves the rate-limiter fields of the session untouched. -/
theorem claim_C3 :
    (∀ (ts : List Nat) (s0 : SessState), s0.rlCount = 0 →
        (∀ t ∈ ts, t - s0.rlStart < 1000) →
        ((rlRun s0 ts).1 = min ts.length 10
          ∧ (∀ t2 : Nat, 10 ≤ ts.length → t2 - s0.rlStart < 1000 →
              (checkRateLimit t2 (rlRun s0 ts).2).1 = false)))
    ∧ (∀ (s : SessState) (t2 : Nat), 1000 ≤ t2 - s.rlStart →
        (checkRateLimit t2 s).1 = true)
    ∧ (∀ (nowMs : Nat) (now : String) (s : SessState) (w : World) (msg : Message),
        msg.type ≠ MsgType.MSG_GLOBAL → msg.type ≠ MsgType.MSG_PRIVATE →
        ((handleMessage nowMs now s w msg).1).rlStart = s.rlStart
        ∧ ((handleMessage nowMs now s w msg).1).rlCount = s.rlCount) := by
  refine ⟨?_, ?_, ?_⟩
  · intro ts s0 hc0 hwin
    obtain ⟨h1, h2, h3⟩ := rlRun_window ts s0 hwin
    constructor
    · rw [hc0] at h3
      omega
    · intro t2 hlen ht2
      rw [checkRateLimit_within t2 (rlRun s0 ts).2 (by rw [h1]; exact ht2)]
      rw [if_pos (by simp only [RATE_LIMIT_MAX_MESSAGES]; rw [h2, hc0]; omega)]
  · intro s t2 ht
    unfold checkRateLimit
    rw [if_pos (by simp only [RATE_LIMIT_WINDOW_SECONDS]; omega)]
  · intro nowMs now s w msg h10 h11
    by_cases e1 : msg.type = MsgType.REGISTER
    · rw [handleMessage_eq_register nowMs now s w msg e1]
      exact ⟨congrArg SessState.rlStart (handleRegister_fst now s w msg),
          congrArg SessState.rlCount (handleRegister_fst now s w msg)⟩
    by_cases e2 : msg.type = MsgType.LOGIN
    · rw [handleMessage_eq_login nowMs now s w msg e2]
      exact handleLogin_rl now s w msg
    by_cases e3 : msg.type = MsgType.LOGOUT
    · rw [handleMessage_eq_logout nowMs now s w msg e3]
      exact handleLogout_rl now s w
    by_cases e4 : msg.type = MsgType.CHANGE_PASSWORD
    · rw [handleMessage_eq_change_password nowMs now s w msg e4]
      exact ⟨congrArg SessState.rlStart (handleChangePassword_fst now s w msg),
          congrArg SessState.rlCount (handleChangePassword_fst now s w msg)⟩
    have e5 : msg.type ≠ MsgType.MSG_GLOBAL := h10
    have e6 : msg.type ≠ MsgType.MSG_PRIVATE := h11
    by_cases e7 : msg.type = MsgType.PING
    · rw [handleMessage_eq_ping nowMs now s w msg e7]
      exact ⟨rfl, rfl⟩
    by_cases e8 : msg.type = MsgType.KICK_USER
    · rw [handleMessage_eq_kick_user nowMs now s w msg e8]
      exact ⟨congrArg SessState.rlStart (handleKickUser_fst now s w msg),
          congrArg SessState.rlCount (handleKickUser_fst now s w msg)⟩
    by_cases e9 : msg.type = MsgType.BAN_USER
    · rw [handleMessage_eq_ban_user nowMs now s w msg e9]
      exact ⟨congrArg SessState.rlStart (handleBanUser_fst now s w msg),
          congrArg SessState.rlCount (handleBanUser_fst now s w msg)⟩
    by_cases e10 : msg.type = MsgType.UNBAN_USER
    · rw [handleMessage_eq_unban_user nowMs now s w msg e10]
      exact ⟨congrArg SessState.rlStart (handleUnbanUser_fst now s w msg),
          congrArg SessState.rlCount (handleUnbanUser_fst now s w msg)⟩
    by_cases e11 : msg.type = MsgType.MUTE_USER
    · rw [handleMessage_eq_mute_user nowMs now s w msg e11]
      exact ⟨congrArg SessState.rlStart (handleMuteUser_fst now s w msg),
          congrArg SessState.rlCount (handleMuteUser_fst now s w msg)⟩
    by_cases e12 : msg.type = MsgType.UNMUTE_USER
    · rw [handleMessage_eq_unmute_user nowMs now s w msg e12]
      exact ⟨congrArg SessState.rlStart (handleUnmuteUser_fst now s w msg),
          congrArg SessState.rlCount (handleUnmuteUser_fst now s w msg)⟩
    by_cases e13 : msg.type = MsgType.PROMOTE_USER
    · rw [handleMessage_eq_promote_user nowMs now s w msg e13]
      exact ⟨congrArg SessState.rlStart (handlePromoteUser_fst now s w msg),
          congrArg SessState.rlCount (handlePromoteUser_fst now s w msg)⟩
    by_cases e14 : msg.type = MsgType.DEMOTE_USER
    · rw [handleMessage_eq_demote_user nowMs now s w msg e14]
      exact ⟨congrArg SessState.rlStart (handleDemoteUser_fst now s w msg),
          congrArg SessState.rlCount (handleDemoteUser_fst now s w msg)⟩
    by_cases e15 : msg.type = MsgType.GET_ALL_USERS
    · rw [handleMessage_eq_get_all_users nowMs now s w msg e15]
      exact ⟨congrArg SessState.rlStart (handleGetAllUsers_fst now s w),
          congrArg SessState.rlCount (handleGetAllUsers_fst now s w)⟩
    by_cases e16 : msg.type = MsgType.GET_BANNED_LIST
    · rw [handleMessage_eq_get_banned_list nowMs now s w msg e16]
      exact ⟨congrArg SessState.rlStart (handleGetBannedList_fst now s w),
          congrArg SessState.rlCount (handleGetBannedList_fst now s w)⟩
    by_cases e17 : msg.type = MsgType.GET_MUTED_LIST
    · rw [handleMessage_eq_get_muted_list nowMs now s w msg e17]
      exact ⟨congrArg SessState.rlStart (handleGetMutedList_fst now s w),
          congrArg SessState.rlCount (handleGetMutedList_fst now s w)⟩
    by_cases e18 : msg.type = MsgType.USER_INFO
    · rw [handleMessage_eq_user_info nowMs now s w msg e18]
      exact ⟨congrArg SessState.rlStart (handleUserInfo_fst now s w msg),
          congrArg SessState.rlCount (handleUserInfo_fst now s w msg)⟩
    rw [handleMessage_eq_default nowMs now s w msg e1 e2 e3 e4 e5 e6 e7 e8 e9 e10 e11 e12 e13 e14 e15 e16 e17 e18]
    exact ⟨rfl, rfl⟩

theorem claim_C3_witness :
    (rlRun ⟨false, "", "", 0, 0⟩ (List.replicate 11 0)).1 = min (List.replicate 11 0).length 10
    ∧ (checkRateLimit 999 (rlRun ⟨false, "", "", 0, 0⟩ (List.replicate 11 0)).2).1 = false
    ∧ (checkRateLimit 1000 ⟨false, "", "", 0, 3⟩).1 = true
    ∧ ((handleMessage 0 "12:00:00" ⟨true, "a", "a", 7, 3⟩ ⟨[], [], []⟩ { type := 200 }).1).rlStart = 7 :=
  ⟨(claim_C3.1 (List.replicate 11 0) ⟨false, "", "", 0, 0⟩ rfl (by decide)).1,
   (claim_C3.1 (List.replicate 11 0) ⟨false, "", "", 0, 0⟩ rfl (by decide)).2 999
     (by decide) (by decide),
   claim_C3.2.1 ⟨false, "", "", 0, 3⟩ 1000 (by decide),
   (claim_C3.2.2 0 "12:00:00" ⟨true, "a", "a", 7, 3⟩ ⟨[], [], []⟩ { type := 200 }
     (by decide) (by decide)).1⟩

theorem handleLogout_auth (now : String) (s : SessState) (w : World)
    (h : s.authenticated = false) :
    ((handleLogout now s w).1).authenticated = false := by
  unfold handleLogout
  rw [if_pos (by simp [h])]
  exact h

/-- C6: confirmed — handleLogin applies its rejection checks in the
order already-logged-in, duplicate session, banned, wrong credentials;
each rejection returns the unchanged session and world (so the online
index is untouched) with exactly one ERROR reply; and from an
unauthenticated session the only dispatch that can reach the
authenticated state is a LOGIN frame whose credentials parse, whose user
is neither online nor banned, and whose password verifies — hence a
banned user can never authenticate. -/
theorem claim_C6 :
    (∀ (now : String) (s : SessState) (w : World) (msg : Message), s.authenticated = true →
        handleLogin now s w msg = (s, w, [.reply (createErrorResponse now "Already logged in")]))
    ∧ (∀ (now : String) (s : SessState) (w : World) (msg : Message) (j : JVal) (uc pc : List Char),
        s.authenticated = false →
        jparse msg.content.data = some j →
        jGetStr j "username".data = some uc →
        jGetStr j "password".data = some pc →
        ((isUserOnline w (String.mk uc) = true →
            handleLogin now s w msg
              = (s, w, [.reply (createErrorResponse now
                  "User already logged in from another location")]))
          ∧ (isUserOnline w (String.mk uc) = false → isBanned w.db (String.mk uc) = true →
            handleLogin now s w msg
              = (s, w, [.reply (createErrorResponse now "Your account has been banned")]))
          ∧ (isUserOnline w (String.mk uc) = false → isBanned w.db (String.mk uc) = false →
              authenticateUser w.db (String.mk uc) (String.mk pc) = false →
            handleLogin now s w msg
              = (s, w, [.reply (createErrorResponse now "Invalid username or password")]))))
    ∧ (∀ (nowMs : Nat) (now : String) (s : SessState) (w : World) (msg : Message),
        s.authenticated = false →
        ((handleMessage nowMs now s w msg).1).authenticated = true →
        msg.type = MsgType.LOGIN
        ∧ ∃ (j : JVal) (uc pc : List Char), jparse msg.content.data = some j
            ∧ jGetStr j "username".data = some uc
            ∧ jGetStr j "password".data = some pc
            ∧ isUserOnline w (String.mk uc) = false
            ∧ isBanned w.db (String.mk uc) = false
            ∧ authenticateUser w.db (String.mk uc) (String.mk pc) = true
            ∧ ((handleMessage nowMs now s w msg).1).username = String.mk uc) := by
  refine ⟨?_, ?_, ?_⟩
  · intro now s w msg hauth
    unfold handleLogin
    rw [if_pos hauth]
  · intro now s w msg j uc pc hauth hj hu hpc
    unfold handleLogin
    rw [if_neg (by simp [hauth])]
    simp only [hj, hu, hpc]
    refine ⟨?_, ?_, ?_⟩
    · intro hon
      rw [if_pos hon]
    · intro hon hban
      rw [if_neg (by simp [hon]), if_pos hban]
    · intro hon hban hok
      rw [if_neg (by simp [hon]), if_neg (by simp [hban]), if_neg (by simp [hok])]
  · intro nowMs now s w msg hauth hres
    by_cases e1 : msg.type = MsgType.REGISTER
    · rw [handleMessage_eq_register nowMs now s w msg e1, handleRegister_fst now s w msg] at hres
      simp [hauth] at hres
    by_cases e2 : msg.type = MsgType.LOGIN
    case neg =>
      by_cases e3 : msg.type = MsgType.LOGOUT
      · rw [handleMessage_eq_logout nowMs now s w msg e3,
          handleLogout_auth now s w hauth] at hres
        simp at hres
      by_cases e4 : msg.type = MsgType.CHANGE_PASSWORD
      · rw [handleMessage_eq_change_password nowMs now s w msg e4,
          handleChangePassword_fst now s w msg] at hres
        simp [hauth] at hres
      by_cases e5 : msg.type = MsgType.MSG_GLOBAL
      · rw [handleMessage_eq_global nowMs now s w msg e5] at hres
        unfold handleGlobalMessage at hres
        rw [if_pos (by simp [hauth])] at hres
        simp [hauth] at hres
      by_cases e6 : msg.type = MsgType.MSG_PRIVATE
      · rw [handleMessage_eq_private nowMs now s w msg e6] at hres
        unfold handlePrivateMessage at hres
        rw [if_pos (by simp [hauth])] at hres
        simp [hauth] at hres
      by_cases e7 : msg.type = MsgType.PING
      · rw [handleMessage_eq_ping nowMs now s w msg e7] at hres
        simp [hauth] at hres
      by_cases e8 : msg.type = MsgType.KICK_USER
      · rw [handleMessage_eq_kick_user nowMs now s w msg e8,
          handleKickUser_fst now s w msg] at hres
        simp [hauth] at hres
      by_cases e9 : msg.type = MsgType.BAN_USER
      · rw [handleMessage_eq_ban_user nowMs now s w msg e9,
          handleBanUser_fst now s w msg] at hres
        simp [hauth] at hres
      by_cases e10 : msg.type = MsgType.UNBAN_USER
      · rw [handleMessage_eq_unban_user nowMs now s w msg e10,
          handleUnbanUser_fst now s w msg] at hres
        simp [hauth] at hres
      by_cases e11 : msg.type = MsgType.MUTE_USER
      · rw [handleMessage_eq_mute_user nowMs now s w msg e11,
          handleMuteUser_fst now s w msg] at hres
        simp [hauth] at hres
      by_cases e12 : msg.type = MsgType.UNMUTE_USER
      · rw [handleMessage_eq_unmute_user nowMs now s w msg e12,
          handleUnmuteUser_fst now s w msg] at hres
        simp [hauth] at hres
      by_cases e13 : msg.type = MsgType.PROMOTE_USER
      · rw [handleMessage_eq_promote_user nowMs now s w msg e13,
          handlePromoteUser_fst now s w msg] at hres
        simp [hauth] at hres
      by_cases e14 : msg.type = MsgType.DEMOTE_USER
      · rw [handleMessage_eq_demote_user nowMs now s w msg e14,
          handleDemoteUser_fst now s w msg] at hres
        simp [hauth] at hres
      by_cases e15 : msg.type = MsgType.GET_ALL_USERS
      · rw [handleMessage_eq_get_all_users nowMs now s w msg e15,
          handleGetAllUsers_fst now s w] at hres
        simp [hauth] at hres
      by_cases e16 : msg.type = MsgType.GET_BANNED_LIST
      · rw [handleMessage_eq_get_banned_list nowMs now s w msg e16,
          handleGetBannedList_fst now s w] at hres
        simp [hauth] at hres
      by_cases e17 : msg.type = MsgType.GET_MUTED_LIST
      · rw [handleMessage_eq_get_muted_list nowMs now s w msg e17,
          handleGetMutedList_fst now s w] at hres
        simp [hauth] at hres
      by_cases e18 : msg.type = MsgType.USER_INFO
      · rw [handleMessage_eq_user_info nowMs now s w msg e18,
          handleUserInfo_fst now s w msg] at hres
        simp [hauth] at hres
      rw [handleMessage_eq_default nowMs now s w msg e1 e2 e3 e4 e5 e6 e7 e8 e9 e10 e11 e12
        e13 e14 e15 e16 e17 e18] at hres
      simp [hauth] at hres
    case pos =>
      refine ⟨e2, ?_⟩
      rw [handleMessage_eq_login nowMs now s w msg e2] at hres ⊢
      unfold handleLogin at hres ⊢
      rw [if_neg (by simp [hauth])] at hres ⊢
      rcases hj : jparse msg.content.data with _ | j
      · simp only [hj] at hres
        simp [hauth] at hres
      rcases hu : jGetStr j "username".data with _ | uc
      · simp only [hj, hu] at hres
        simp [hauth] at hres
      rcases hpc : jGetStr j "password".data with _ | pc
      · simp only [hj, hu, hpc] at hres
        simp [hauth] at hres
      simp only [hj, hu, hpc] at hres ⊢
      by_cases hon : isUserOnline w (String.mk uc)
      · rw [if_pos hon] at hres
        simp [hauth] at hres
      rw [if_neg hon] at hres ⊢
      by_cases hban : isBanned w.db (String.mk uc)
      · rw [if_pos hban] at hres
        simp [hauth] at hres
      rw [if_neg hban] at hres ⊢
      by_cases hok : authenticateUser w.db (String.mk uc) (String.mk pc)
      · rw [if_pos hok] at hres ⊢
        exact ⟨j, uc, pc, rfl, hu, hpc, by simpa using hon, by simpa using hban, hok, rfl⟩
      · rw [if_neg hok] at hres
        simp [hauth] at hres

theorem claim_C6_witness :
    handleLogin "12:00:00" ⟨true, "a", "a", 0, 0⟩ ⟨[], [], []⟩ { type := 2 }
      = (⟨true, "a", "a", 0, 0⟩, ⟨[], [], []⟩,
         [.reply (createErrorResponse "12:00:00" "Already logged in")])
    ∧ handleLogin "12:00:00" ⟨false, "", "", 0, 0⟩ ⟨[("alice", ⟨hashPassword "pw123", "alice", 0, false, false, "t"⟩), ("bob", ⟨hashPassword "x", "bob", 0, true, false, "t"⟩)], ["bob"], []⟩ { type := 2, content := String.mk (dumpFlatObj [("password".data, JVal.jstr "x".data), ("username".data, JVal.jstr "bob".data)]) }
      = (⟨false, "", "", 0, 0⟩, ⟨[("alice", ⟨hashPassword "pw123", "alice", 0, false, false, "t"⟩), ("bob", ⟨hashPassword "x", "bob", 0, true, false, "t"⟩)], ["bob"], []⟩,
         [.reply (createErrorResponse "12:00:00" "User already logged in from another location")])
    ∧ handleLogin "12:00:00" ⟨false, "", "", 0, 0⟩ ⟨[("alice", ⟨hashPassword "pw123", "alice", 0, false, false, "t"⟩), ("bob", ⟨hashPassword "x", "bob", 0, true, false, "t"⟩)], [], []⟩ { type := 2, content := String.mk (dumpFlatObj [("password".data, JVal.jstr "x".data), ("username".data, JVal.jstr "bob".data)]) }
      = (⟨false, "", "", 0, 0⟩, ⟨[("alice", ⟨hashPassword "pw123", "alice", 0, false, false, "t"⟩), ("bob", ⟨hashPassword "x", "bob", 0, true, false, "t"⟩)], [], []⟩,
         [.reply (createErrorResponse "12:00:00" "Your account has been banned")])
    ∧ handleLogin "12:00:00" ⟨false, "", "", 0, 0⟩ ⟨[("alice", ⟨hashPassword "pw123", "alice", 0, false, false, "t"⟩), ("bob", ⟨hashPassword "x", "bob", 0, true, false, "t"⟩)], [], []⟩ { type := 2, content := String.mk (dumpFlatObj [("password".data, JVal.jstr "bad".data), ("username".data, JVal.jstr "alice".data)]) }
      = (⟨false, "", "", 0, 0⟩, ⟨[("alice", ⟨hashPassword "pw123", "alice", 0, false, false, "t"⟩), ("bob", ⟨hashPassword "x", "bob", 0, true, false, "t"⟩)], [], []⟩,
         [.reply (createErrorResponse "12:00:00" "Invalid username or password")])
    ∧ (({ type := 2, content := String.mk (dumpFlatObj [("password".data, JVal.jstr "pw123".data), ("username".data, JVal.jstr "alice".data)]) } : Message).type = MsgType.LOGIN
        ∧ ∃ (j : JVal) (uc pc : List Char),
            jparse ({ type := 2, content := String.mk (dumpFlatObj [("password".data, JVal.jstr "pw123".data), ("username".data, JVal.jstr "alice".data)]) } : Message).content.data = some j
            ∧ jGetStr j "username".data = some uc
            ∧ jGetStr j "password".data = some pc
            ∧ isUserOnline ⟨[("alice", ⟨hashPassword "pw123", "alice", 0, false, false, "t"⟩), ("bob", ⟨hashPassword "x", "bob", 0, true, false, "t"⟩)], [], []⟩ (String.mk uc) = false
            ∧ isBanned (World.db ⟨[("alice", ⟨hashPassword "pw123", "alice", 0, false, false, "t"⟩), ("bob", ⟨hashPassword "x", "bob", 0, true, false, "t"⟩)], [], []⟩) (String.mk uc) = false
            ∧ authenticateUser (World.db ⟨[("alice", ⟨hashPassword "pw123", "alice", 0, false, false, "t"⟩), ("bob", ⟨hashPassword "x", "bob", 0, true, false, "t"⟩)], [], []⟩) (String.mk uc) (String.mk pc) = true
            ∧ ((handleMessage 0 "12:00:00" ⟨false, "", "", 0, 0⟩ ⟨[("alice", ⟨hashPassword "pw123", "alice", 0, false, false, "t"⟩), ("bob", ⟨hashPassword "x", "bob", 0, true, false, "t"⟩)], [], []⟩ { type := 2, content := String.mk (dumpFlatObj [("password".data, JVal.jstr "pw123".data), ("username".data, JVal.jstr "alice".data)]) }).1).username = String.mk uc) :=
  ⟨claim_C6.1 "12:00:00" ⟨true, "a", "a", 0, 0⟩ ⟨[], [], []⟩ { type := 2 } rfl,
   (claim_C6.2.1 "12:00:00" ⟨false, "", "", 0, 0⟩ ⟨[("alice", ⟨hashPassword "pw123", "alice", 0, false, false, "t"⟩), ("bob", ⟨hashPassword "x", "bob", 0, true, false, "t"⟩)], ["bob"], []⟩ { type := 2, content := String.mk (dumpFlatObj [("password".data, JVal.jstr "x".data), ("username".data, JVal.jstr "bob".data)]) } (JVal.jobj [("password".data, JVal.jstr "x".data), ("username".data, JVal.jstr "bob".data)]) "bob".data "x".data
     rfl (by rfl) (by decide) (by decide)).1 (by decide),
   (claim_C6.2.1 "12:00:00" ⟨false, "", "", 0, 0⟩ ⟨[("alice", ⟨hashPassword "pw123", "alice", 0, false, false, "t"⟩), ("bob", ⟨hashPassword "x", "bob", 0, true, false, "t"⟩)], [], []⟩ { type := 2, content := String.mk (dumpFlatObj [("password".data, JVal.jstr "x".data), ("username".data, JVal.jstr "bob".data)]) } (JVal.jobj [("password".data, JVal.jstr "x".data), ("username".data, JVal.jstr "bob".data)]) "bob".data "x".data
     rfl (by rfl) (by decide) (by decide)).2.1 (by decide) (by decide),
   (claim_C6.2.1 "12:00:00" ⟨false, "", "", 0, 0⟩ ⟨[("alice", ⟨hashPassword "pw123", "alice", 0, false, false, "t"⟩), ("bob", ⟨hashPassword "x", "bob", 0, true, false, "t"⟩)], [], []⟩ { type := 2, content := String.mk (dumpFlatObj [("password".data, JVal.jstr "bad".data), ("username".data, JVal.jstr "alice".data)]) } (JVal.jobj [("password".data, JVal.jstr "bad".data), ("username".data, JVal.jstr "alice".data)]) "alice".data "bad".data
     rfl (by rfl) (by decide) (by decide)).2.2 (by decide) (by decide) (by decide),
   claim_C6.2.2 0 "12:00:00" ⟨false, "", "", 0, 0⟩ ⟨[("alice", ⟨hashPassword "pw123", "alice", 0, false, false, "t"⟩), ("bob", ⟨hashPassword "x", "bob", 0, true, false, "t"⟩)], [], []⟩ { type := 2, content := String.mk (dumpFlatObj [("password".data, JVal.jstr "pw123".data), ("username".data, JVal.jstr "alice".data)]) } rfl (by decide)⟩

theorem dbFind_append_self (db : List (String × UserRec)) (u : String) (v : UserRec)
    (h : dbFind db u = none) : dbFind (db ++ [(u, v)]) u = some v := by
  induction db with
  | nil => simp [dbFind]
  | cons p rest ih =>
    rw [List.cons_append]
    unfold dbFind
    unfold dbFind at h
    by_cases hk : p.1 = u
    · rw [if_pos hk] at h
      cases h
    · rw [if_neg hk] at h ⊢
      exact ih h

/-- C8: confirmed — after a successful registration authenticate accepts
the registered password; authenticate succeeds exactly when the user row
exists and the salted hash of the supplied password equals the stored
hash; and any password whose salted hash differs from the registered
password's hash is rejected.  (std::hash is implementation-defined, so the
model fixes it as 64-bit FNV-1a; a wrong password is refused exactly when
its salted hash differs, which is the hash-collision caveat on the
claim's p-prime clause.) -/
theorem claim_C8 :
    (∀ (db : List (String × UserRec)) (u p dn : String), dbFind db u = none →
        authenticateUser (registerUser db u p dn).2 u p = true)
    ∧ (∀ (db : List (String × UserRec)) (u p2 : String),
        authenticateUser db u p2 = true
          ↔ ∃ r, dbFind db u = some r ∧ hashPassword p2 = r.pwHash)
    ∧ (∀ (db : List (String × UserRec)) (u p p2 dn : String), dbFind db u = none →
        hashPassword p2 ≠ hashPassword p →
        authenticateUser (registerUser db u p dn).2 u p2 = false) := by
  refine ⟨?_, ?_, ?_⟩
  · intro db u p dn h
    unfold registerUser
    simp only [h]
    unfold authenticateUser
    rw [dbFind_append_self db u _ h]
    simp
  · intro db u p2
    unfold authenticateUser
    rcases hf : dbFind db u with _ | r
    · simp
    · simp
  · intro db u p p2 dn h hne
    unfold registerUser
    simp only [h]
    unfold authenticateUser
    rw [dbFind_append_self db u _ h]
    simp [hne]

theorem claim_C8_witness :
    authenticateUser (registerUser [] "alice" "pw" "").2 "alice" "pw" = true
    ∧ authenticateUser (registerUser [] "alice" "pw" "").2 "alice" "qq" = false :=
  ⟨claim_C8.1 [] "alice" "pw" "" rfl,
   claim_C8.2.2 [] "alice" "pw" "qq" "" rfl (by decide)⟩

/-- C9: confirmed under the reading that a "valid payload" is one whose
present message fields all have the expected JSON types — deserialize is
total by construction (the C++ try/catch), an undecodable or non-JSON
payload or a missing/non-integer "type" yields a Message of type ERROR
whose content starts with "Parse error: ", and when every string-field
read succeeds, a field absent from the payload object comes back as the
empty string (j.value default). -/
theorem claim_C9 :
    (∀ data : List Nat,
        (utf8Decode data = none
          ∨ (∃ chars, utf8Decode data = some chars ∧ jparse chars = none)
          ∨ (∃ chars j, utf8Decode data = some chars ∧ jparse chars = some j
              ∧ jGetInt j "type".data = none)) →
        (deserialize data).type = MsgType.ERROR
          ∧ ∃ rest : String, (deserialize data).content = "Parse error: " ++ rest)
    ∧ (∀ (data : List Nat) (chars : List Char) (l : List (List Char × JVal)) (t : Int)
        (snd rcv cnt ts ex : List Char),
        utf8Decode data = some chars →
        jparse chars = some (JVal.jobj l) →
        jGetInt (JVal.jobj l) "type".data = some t →
        jValueStr (JVal.jobj l) "sender".data = some snd →
        jValueStr (JVal.jobj l) "receiver".data = some rcv →
        jValueStr (JVal.jobj l) "content".data = some cnt →
        jValueStr (JVal.jobj l) "timestamp".data = some ts →
        jValueStr (JVal.jobj l) "extra".data = some ex →
        deserialize data
          = { type := t, sender := String.mk snd, receiver := String.mk rcv,
              content := String.mk cnt, timestamp := String.mk ts, extra := String.mk ex }
          ∧ (jLookup l "sender".data = none → String.mk snd = "")
          ∧ (jLookup l "receiver".data = none → String.mk rcv = "")
          ∧ (jLookup l "content".data = none → String.mk cnt = "")
          ∧ (jLookup l "timestamp".data = none → String.mk ts = "")
          ∧ (jLookup l "extra".data = none → String.mk ex = "")) := by
  constructor
  · intro data h
    rcases h with h | ⟨chars, hc, hp⟩ | ⟨chars, j, hc, hp, ht⟩
    · unfold deserialize
      simp only [h]
      exact ⟨rfl, "invalid UTF-8", rfl⟩
    · unfold deserialize
      simp only [hc, hp]
      exact ⟨rfl, "syntax error", rfl⟩
    · unfold deserialize
      simp only [hc, hp, ht]
      exact ⟨rfl, "type", rfl⟩
  · intro data chars l t snd rcv cnt ts ex hc hp ht hs hr hco hts hex
    refine ⟨?_, ?_, ?_, ?_, ?_, ?_⟩
    · unfold deserialize
      simp only [hc, hp, ht, hs, hr, hco, hts, hex]
    · intro hk
      simp only [jValueStr, hk] at hs
      cases hs
      rfl
    · intro hk
      simp only [jValueStr, hk] at hr
      cases hr
      rfl
    · intro hk
      simp only [jValueStr, hk] at hco
      cases hco
      rfl
    · intro hk
      simp only [jValueStr, hk] at hts
      cases hts
      rfl
    · intro hk
      simp only [jValueStr, hk] at hex
      cases hex
      rfl

theorem claim_C9_witness :
    ((deserialize [255]).type = MsgType.ERROR
      ∧ ∃ rest : String, (deserialize [255]).content = "Parse error: " ++ rest)
    ∧ (deserialize (utf8Encode (dumpFlatObj [("type".data, JVal.jnum 1)]))
        = { type := 1, sender := "", receiver := "", content := "", timestamp := "", extra := "" }
      ∧ (jLookup [("type".data, JVal.jnum 1)] "sender".data = none → ("" : String) = "")) :=
  ⟨claim_C9.1 [255] (Or.inl (by decide)),
   (fun h => ⟨h.1, fun hk => h.2.1 hk⟩)
     (claim_C9.2 (utf8Encode (dumpFlatObj [("type".data, JVal.jnum 1)]))
       (dumpFlatObj [("type".data, JVal.jnum 1)]) [("type".data, JVal.jnum 1)] 1 [] [] [] [] []
       (by decide)
       (jparse_dumpFlatObj [("type".data, JVal.jnum 1)] (by simp)
         (by intro kv hkv; rw [List.mem_singleton] at hkv; subst hkv; exact rfl))
       (by decide) (by rfl) (by rfl) (by rfl) (by rfl) (by rfl))⟩

end ChatSpec
